import Mathlib

/-!
Shallow embedding of `generate_encounter_narrative.py` / `utils.py`
(encounter-narrative generation over Synthea EHR tables).

Pandas cells are modelled by `Cell` (missing value, string, or float —
floats carried as exact rationals).  A dataframe row is an association
list from column names to cells; a dataframe is a column list plus a
row list; the dict of loaded tables is an association list from table
names to dataframes.  Fallible Python code (exceptions) is modelled
with `Except Err`.  All reasoning-engine (LLM) calls are opaque
function parameters: the pipeline is parametric in them.
-/

namespace EHRGen

/-- A pandas cell: NaN (missing), a string, or a float (exact rational). -/
inductive Cell : Type where
| nan : Cell
| str (s : String) : Cell
| num (q : ℚ) : Cell
deriving DecidableEq, Repr

/-- A dataframe row: association list column-name ↦ cell. -/
abbrev Row := List (String × Cell)

/-- Embedding of `row[col]`: the cell stored at a column (a column that is not present
behaves as a missing value). -/
def getCell (r : Row) (c : String) : Cell :=
  match r.find? (fun p => p.1 = c) with
  | some p => p.2
  | none => Cell.nan

/-- A pandas DataFrame: its columns and its rows. -/
structure DataFrame where
  cols : List String
  rows : List Row
deriving DecidableEq, Repr

/-- The dict of loaded tables, keyed by table (csv stem) name. -/
abbrev Tables := List (String × DataFrame)

/-- Dict lookup on the loaded tables. -/
def lookupTable (dfs : Tables) (name : String) : Option DataFrame :=
  (dfs.find? (fun p => p.1 = name)).map (fun p => p.2)

/-- Python exception kinds raised by the modelled code. -/
inductive Err : Type where
| valueError (msg : String) : Err
| keyError (msg : String) : Err
| indexError : Err
| attributeError : Err
| validationError : Err
deriving DecidableEq, Repr

/-- Python `isinstance(e, LookupError)`: `KeyError` and `IndexError`
are the `LookupError` subclasses; `ValueError` is not one. -/
def Err.isLookupError : Err → Bool
| Err.keyError _ => true
| Err.indexError => true
| _ => false

/-- Embedding of `pd.isna`: true exactly on the missing value. -/
def pdIsna : Cell → Bool
| Cell.nan => true
| _ => false

/-- Elementwise `df[col] == some_string`: only an equal string cell
compares true (NaN or a float compared to a string gives False). -/
def cellEqStr (c : Cell) (s : String) : Bool :=
  match c with
  | Cell.str t => t = s
  | _ => false

@[simp] theorem excBind_ok {α β : Type} (a : α) (f : α → Except Err β) :
    (Except.ok a >>= f) = f a := rfl

@[simp] theorem excBind_error {α β : Type} (e : Err) (f : α → Except Err β) :
    ((Except.error e : Except Err α) >>= f) = Except.error e := rfl

@[simp] theorem excPure {α : Type} (a : α) : (pure a : Except Err α) = Except.ok a := rfl

theorem bind_ok {α β : Type} {e : Except Err α} {f : α → Except Err β} {b : β}
    (h : e >>= f = Except.ok b) : ∃ a, e = Except.ok a ∧ f a = Except.ok b := by
  cases e with
  | error err => simp at h
  | ok a => exact ⟨a, rfl, by simpa using h⟩

/-- Python `float` truncation toward zero, i.e. `int(q)` on a float. -/
def pyTruncQ (q : ℚ) : Int := if 0 ≤ q then ⌊q⌋ else ⌈q⌉

/-- Value of a digit string, most significant digit first. -/
def digitsVal (l : List Char) : Nat :=
  l.foldl (fun a c => 10 * a + (c.toNat - 48)) 0

/-- A non-empty all-digit character list. -/
def isDigits (l : List Char) : Bool := !l.isEmpty && l.all Char.isDigit

/-- Python `int(s)` on a string: an optional sign followed by digits
(the exotic forms — whitespace, underscores — play no role here). -/
def pyIntOfChars (l : List Char) : Except Err Int :=
  match l with
  | '-' :: rest =>
      if isDigits rest then Except.ok (-(digitsVal rest : Int))
      else Except.error (Err.valueError "invalid literal for int")
  | '+' :: rest =>
      if isDigits rest then Except.ok (digitsVal rest : Int)
      else Except.error (Err.valueError "invalid literal for int")
  | _ =>
      if isDigits l then Except.ok (digitsVal l : Int)
      else Except.error (Err.valueError "invalid literal for int")

/-- Python `int(cell)`: floats truncate toward zero, strings are parsed,
NaN raises `ValueError`. -/
def pyInt (c : Cell) : Except Err Int :=
  match c with
  | Cell.nan => Except.error (Err.valueError "cannot convert float NaN to integer")
  | Cell.num q => Except.ok (pyTruncQ q)
  | Cell.str s => pyIntOfChars s.data

/-- A Python float value: `none` stands for the NaN float. -/
abbrev PyFloat := Option ℚ

/-- Python `float(cell)` for the numeric CSV columns: NaN stays NaN,
floats pass through.  (pandas parses numeric columns to floats, so a
string cell does not occur there; it is treated as a failure.) -/
def pyFloat (c : Cell) : Except Err PyFloat :=
  match c with
  | Cell.nan => Except.ok none
  | Cell.num q => Except.ok (some q)
  | Cell.str _ => Except.error (Err.valueError "float() of a string cell")

/-- Python `str(cell)` (never fails).  The exact float formatting is
irrelevant below; an injective printable form is used. -/
def pyStr (c : Cell) : String :=
  match c with
  | Cell.nan => "nan"
  | Cell.str s => s
  | Cell.num q => toString q.num ++ "/" ++ toString q.den

/-- A pydantic `str` field fed a raw cell: only a string validates. -/
def pyStrField (c : Cell) : Except Err String :=
  match c with
  | Cell.str s => Except.ok s
  | _ => Except.error Err.validationError

/-- Embedding of `None if pd.isna(cell) else cell` fed to a pydantic `Optional[str]`
field: NaN becomes `None`, a string passes, a float fails validation. -/
def optStrField (c : Cell) : Except Err (Option String) :=
  match c with
  | Cell.nan => Except.ok none
  | Cell.str s => Except.ok (some s)
  | Cell.num _ => Except.error Err.validationError

/-- Embedding of `None if pd.isna(cell) else float(cell)` for `Optional[float]` fields. -/
def optFloatField (c : Cell) : Except Err (Option ℚ) :=
  match c with
  | Cell.nan => Except.ok none
  | Cell.num q => Except.ok (some q)
  | Cell.str _ => Except.error (Err.valueError "float() of a string cell")

/-- A required pydantic field of model type rejects `None`. -/
def reqSome {α : Type} : Option α → Except Err α
| some a => Except.ok a
| none => Except.error Err.validationError

/-- Embedding of `Date` record (`utils.Date`). -/
structure Date where
  year : Int
  month : Int
  day : Int
deriving DecidableEq, Repr

/-- Embedding of `DateTime` record (`utils.DateTime`). -/
structure DateTime where
  year : Int
  month : Int
  day : Int
  hour : Int
  minute : Int
  second : Int
deriving DecidableEq, Repr

/-- Python `s.split(sep)` for a one-character separator.  The result is
always non-empty; a separator opens a new (initially empty) field. -/
def pySplitOn (sep : Char) : List Char → List (List Char)
| [] => [[]]
| c :: rest =>
  let r := pySplitOn sep rest
  if c = sep then [] :: r else (c :: r.headD []) :: r.tail

/-- Python `s.rstrip("Z")`: drop every trailing `Z`. -/
def rstripZ (l : List Char) : List Char :=
  (l.reverse.dropWhile (fun c => c = 'Z')).reverse

/-- Body of `parse_date` past the NaN/empty guard:
`year, month, day = date_str.split("-")`, then `int` each field. -/
def date_of_chars (l : List Char) : Except Err Date :=
  match pySplitOn '-' l with
  | [y, m, d] => do
      let yi ← pyIntOfChars y
      let mi ← pyIntOfChars m
      let di ← pyIntOfChars d
      pure (Date.mk yi mi di)
  | _ => Except.error (Err.valueError "unpack")

/-- Embedding of `parse_date`: NaN or the empty string give `None`; a float has no
`split` (`AttributeError`); otherwise the string must be `Y-M-D`. -/
def parse_date (c : Cell) : Except Err (Option Date) :=
  match c with
  | Cell.nan => Except.ok none
  | Cell.num _ => Except.error Err.attributeError
  | Cell.str s =>
      if s = "" then Except.ok none
      else (date_of_chars s.data).map (fun d => some d)

/-- Body of `parse_datetime` past the NaN/empty guard:
`date_part, time_part = datetime_str.rstrip("Z").split("T")`, then the
date on `-` and the time on `:`, then `int` each of the six fields. -/
def datetime_of_chars (l : List Char) : Except Err DateTime :=
  match pySplitOn 'T' (rstripZ l) with
  | [date_part, time_part] =>
      match pySplitOn '-' date_part, pySplitOn ':' time_part with
      | [y, m, d], [h, mi, sec] => do
          let yi ← pyIntOfChars y
          let moi ← pyIntOfChars m
          let di ← pyIntOfChars d
          let hi ← pyIntOfChars h
          let mii ← pyIntOfChars mi
          let si ← pyIntOfChars sec
          pure (DateTime.mk yi moi di hi mii si)
      | _, _ => Except.error (Err.valueError "unpack")
  | _ => Except.error (Err.valueError "unpack")

/-- Embedding of `parse_datetime`: NaN or the empty string give `None`; a float has
no `rstrip` (`AttributeError`); otherwise parse the stripped string. -/
def parse_datetime (c : Cell) : Except Err (Option DateTime) :=
  match c with
  | Cell.nan => Except.ok none
  | Cell.num _ => Except.error Err.attributeError
  | Cell.str s =>
      if s = "" then Except.ok none
      else (datetime_of_chars s.data).map (fun d => some d)

/-- Lexicographic order on `DateTime` values (year, month, day, hour,
minute, second), used to state the `start <= stop` property. -/
def DateTime.leB (a b : DateTime) : Bool :=
  if a.year ≠ b.year then a.year < b.year
  else if a.month ≠ b.month then a.month < b.month
  else if a.day ≠ b.day then a.day < b.day
  else if a.hour ≠ b.hour then a.hour < b.hour
  else if a.minute ≠ b.minute then a.minute < b.minute
  else a.second ≤ b.second

/-- Embedding of `None if pd.isna(row["ZIP"]) else str(int(row["ZIP"]))`. -/
def zip_of_cell (c : Cell) : Except Err (Option String) :=
  match c with
  | Cell.nan => Except.ok none
  | c => (pyInt c).map (fun n => some (toString n))

/-- Embedding of `PatientProfile` record model.  (The pydantic field `prefix` is a
Lean keyword and is rendered `prefix_name`.) -/
structure PatientProfile where
  id : String
  birthdate : Date
  ssn : String
  first : String
  last : String
  race : String
  ethnicity : String
  gender : String
  birthplace : String
  address : String
  city : String
  state : String
  county : String
  deathdate : Option Date
  drivers : Option String
  passport : Option String
  prefix_name : Option String
  suffix : Option String
  maiden : Option String
  zip : Option String
  marital : Option String
  lat : PyFloat
  lon : PyFloat
  healthcare_expenses : PyFloat
  healthcare_coverage : PyFloat
deriving DecidableEq, Repr

/-- Embedding of `PatientProfile.from_row`, keyword arguments in source order. -/
def PatientProfile.from_row (r : Row) : Except Err PatientProfile := do
  let idv ← pyStrField (getCell r "Id")
  let birthdatev ← reqSome (← parse_date (getCell r "BIRTHDATE"))
  let ssnv ← pyStrField (getCell r "SSN")
  let firstv ← pyStrField (getCell r "FIRST")
  let lastv ← pyStrField (getCell r "LAST")
  let maritalv ← optStrField (getCell r "MARITAL")
  let racev ← pyStrField (getCell r "RACE")
  let ethnicityv ← pyStrField (getCell r "ETHNICITY")
  let genderv ← pyStrField (getCell r "GENDER")
  let birthplacev ← pyStrField (getCell r "BIRTHPLACE")
  let addressv ← pyStrField (getCell r "ADDRESS")
  let cityv ← pyStrField (getCell r "CITY")
  let statev ← pyStrField (getCell r "STATE")
  let countyv ← pyStrField (getCell r "COUNTY")
  let deathdatev ← parse_date (getCell r "DEATHDATE")
  let driversv ← optStrField (getCell r "DRIVERS")
  let passportv ← optStrField (getCell r "PASSPORT")
  let prefixv ← optStrField (getCell r "PREFIX")
  let suffixv ← optStrField (getCell r "SUFFIX")
  let maidenv ← optStrField (getCell r "MAIDEN")
  let zipv ← zip_of_cell (getCell r "ZIP")
  let latv ← pyFloat (getCell r "LAT")
  let lonv ← pyFloat (getCell r "LON")
  let expensesv ← pyFloat (getCell r "HEALTHCARE_EXPENSES")
  let coveragev ← pyFloat (getCell r "HEALTHCARE_COVERAGE")
  pure (PatientProfile.mk idv birthdatev ssnv firstv lastv racev ethnicityv genderv
    birthplacev addressv cityv statev countyv deathdatev driversv passportv prefixv
    suffixv maidenv zipv maritalv latv lonv expensesv coveragev)

/-- Embedding of `EncounterProfile` record model. -/
structure EncounterProfile where
  id : String
  start : DateTime
  stop : DateTime
  patient : String
  organization : String
  provider : String
  payer : String
  encounterclass : String
  code : String
  description : String
  base_encounter_cost : PyFloat
  total_claim_cost : PyFloat
  payer_coverage : PyFloat
  reasoncode : Option ℚ
  reasondescription : Option String
deriving DecidableEq, Repr

/-- Embedding of `EncounterProfile.from_row`, keyword arguments in source order.
There is no validator relating `start` and `stop`. -/
def EncounterProfile.from_row (r : Row) : Except Err EncounterProfile := do
  let idv ← pyStrField (getCell r "Id")
  let startv ← reqSome (← parse_datetime (getCell r "START"))
  let stopv ← reqSome (← parse_datetime (getCell r "STOP"))
  let patientv ← pyStrField (getCell r "PATIENT")
  let organizationv ← pyStrField (getCell r "ORGANIZATION")
  let providerv ← pyStrField (getCell r "PROVIDER")
  let payerv ← pyStrField (getCell r "PAYER")
  let encounterclassv ← pyStrField (getCell r "ENCOUNTERCLASS")
  let codev := pyStr (getCell r "CODE")
  let descriptionv ← pyStrField (getCell r "DESCRIPTION")
  let basev ← pyFloat (getCell r "BASE_ENCOUNTER_COST")
  let totalv ← pyFloat (getCell r "TOTAL_CLAIM_COST")
  let coveragev ← pyFloat (getCell r "PAYER_COVERAGE")
  let reasoncodev ← optFloatField (getCell r "REASONCODE")
  let reasondescriptionv ← optStrField (getCell r "REASONDESCRIPTION")
  pure (EncounterProfile.mk idv startv stopv patientv organizationv providerv payerv
    encounterclassv codev descriptionv basev totalv coveragev reasoncodev
    reasondescriptionv)

/-- Embedding of `ObservationProfile` record model. -/
structure ObservationProfile where
  date : DateTime
  patient : String
  code : String
  description : String
  value : String
  type : String
  encounter : Option String
  units : Option String
deriving DecidableEq, Repr

/-- Embedding of `ObservationProfile.from_row`. -/
def ObservationProfile.from_row (r : Row) : Except Err ObservationProfile := do
  let datev ← reqSome (← parse_datetime (getCell r "DATE"))
  let patientv ← pyStrField (getCell r "PATIENT")
  let encounterv ← optStrField (getCell r "ENCOUNTER")
  let codev := pyStr (getCell r "CODE")
  let descriptionv ← pyStrField (getCell r "DESCRIPTION")
  let valuev := pyStr (getCell r "VALUE")
  let unitsv ← optStrField (getCell r "UNITS")
  let typev ← pyStrField (getCell r "TYPE")
  pure (ObservationProfile.mk datev patientv codev descriptionv valuev typev
    encounterv unitsv)

/-- Embedding of `ImmunizationProfile` record model. -/
structure ImmunizationProfile where
  date : DateTime
  patient : String
  code : Int
  description : String
  base_cost : PyFloat
  encounter : Option String
deriving DecidableEq, Repr

/-- Embedding of `ImmunizationProfile.from_row`. -/
def ImmunizationProfile.from_row (r : Row) : Except Err ImmunizationProfile := do
  let datev ← reqSome (← parse_datetime (getCell r "DATE"))
  let patientv ← pyStrField (getCell r "PATIENT")
  let encounterv ← optStrField (getCell r "ENCOUNTER")
  let codev ← pyInt (getCell r "CODE")
  let descriptionv ← pyStrField (getCell r "DESCRIPTION")
  let basev ← pyFloat (getCell r "BASE_COST")
  pure (ImmunizationProfile.mk datev patientv codev descriptionv basev encounterv)

/-- Embedding of `MedicationProfile` record model. -/
structure MedicationProfile where
  start : DateTime
  patient : String
  payer : String
  code : Int
  description : String
  base_cost : PyFloat
  payer_coverage : PyFloat
  dispenses : Int
  totalcost : PyFloat
  stop : Option DateTime
  encounter : Option String
  reasoncode : Option ℚ
  reasondescription : Option String
deriving DecidableEq, Repr

/-- Embedding of `MedicationProfile.from_row`. -/
def MedicationProfile.from_row (r : Row) : Except Err MedicationProfile := do
  let startv ← reqSome (← parse_datetime (getCell r "START"))
  let stopv ← parse_datetime (getCell r "STOP")
  let patientv ← pyStrField (getCell r "PATIENT")
  let payerv ← pyStrField (getCell r "PAYER")
  let encounterv ← optStrField (getCell r "ENCOUNTER")
  let codev ← pyInt (getCell r "CODE")
  let descriptionv ← pyStrField (getCell r "DESCRIPTION")
  let basev ← pyFloat (getCell r "BASE_COST")
  let coveragev ← pyFloat (getCell r "PAYER_COVERAGE")
  let dispensesv ← pyInt (getCell r "DISPENSES")
  let totalv ← pyFloat (getCell r "TOTALCOST")
  let reasoncodev ← optFloatField (getCell r "REASONCODE")
  let reasondescriptionv ← optStrField (getCell r "REASONDESCRIPTION")
  pure (MedicationProfile.mk startv patientv payerv codev descriptionv basev coveragev
    dispensesv totalv stopv encounterv reasoncodev reasondescriptionv)

/-- Embedding of `ProcedureProfile` record model. -/
structure ProcedureProfile where
  date : DateTime
  patient : String
  code : Int
  description : String
  base_cost : PyFloat
  encounter : Option String
  reasoncode : Option ℚ
  reasondescription : Option String
deriving DecidableEq, Repr

/-- Embedding of `ProcedureProfile.from_row`. -/
def ProcedureProfile.from_row (r : Row) : Except Err ProcedureProfile := do
  let datev ← reqSome (← parse_datetime (getCell r "DATE"))
  let patientv ← pyStrField (getCell r "PATIENT")
  let encounterv ← optStrField (getCell r "ENCOUNTER")
  let codev ← pyInt (getCell r "CODE")
  let descriptionv ← pyStrField (getCell r "DESCRIPTION")
  let basev ← pyFloat (getCell r "BASE_COST")
  let reasoncodev ← optFloatField (getCell r "REASONCODE")
  let reasondescriptionv ← optStrField (getCell r "REASONDESCRIPTION")
  pure (ProcedureProfile.mk datev patientv codev descriptionv basev encounterv
    reasoncodev reasondescriptionv)

/-- Embedding of `CarePlanProfile` record model. -/
structure CarePlanProfile where
  id : String
  start : Date
  patient : String
  code : Int
  description : String
  stop : Option Date
  encounter : Option String
  reasoncode : Option ℚ
  reasondescription : Option String
deriving DecidableEq, Repr

/-- Embedding of `CarePlanProfile.from_row`. -/
def CarePlanProfile.from_row (r : Row) : Except Err CarePlanProfile := do
  let idv ← pyStrField (getCell r "Id")
  let startv ← reqSome (← parse_date (getCell r "START"))
  let stopv ← parse_date (getCell r "STOP")
  let patientv ← pyStrField (getCell r "PATIENT")
  let encounterv ← optStrField (getCell r "ENCOUNTER")
  let codev ← pyInt (getCell r "CODE")
  let descriptionv ← pyStrField (getCell r "DESCRIPTION")
  let reasoncodev ← optFloatField (getCell r "REASONCODE")
  let reasondescriptionv ← optStrField (getCell r "REASONDESCRIPTION")
  pure (CarePlanProfile.mk idv startv patientv codev descriptionv stopv encounterv
    reasoncodev reasondescriptionv)

/-- Embedding of `ConditionProfile` record model. -/
structure ConditionProfile where
  start : Date
  patient : String
  code : Int
  description : String
  stop : Option Date
  encounter : Option String
deriving DecidableEq, Repr

/-- Embedding of `ConditionProfile.from_row`. -/
def ConditionProfile.from_row (r : Row) : Except Err ConditionProfile := do
  let startv ← reqSome (← parse_date (getCell r "START"))
  let stopv ← parse_date (getCell r "STOP")
  let patientv ← pyStrField (getCell r "PATIENT")
  let encounterv ← optStrField (getCell r "ENCOUNTER")
  let codev ← pyInt (getCell r "CODE")
  let descriptionv ← pyStrField (getCell r "DESCRIPTION")
  pure (ConditionProfile.mk startv patientv codev descriptionv stopv encounterv)

/-- Embedding of `DeviceProfile` record model. -/
structure DeviceProfile where
  start : DateTime
  patient : String
  code : Int
  description : String
  udi : String
  stop : Option DateTime
  encounter : Option String
deriving DecidableEq, Repr

/-- Embedding of `DeviceProfile.from_row`. -/
def DeviceProfile.from_row (r : Row) : Except Err DeviceProfile := do
  let startv ← reqSome (← parse_datetime (getCell r "START"))
  let stopv ← parse_datetime (getCell r "STOP")
  let patientv ← pyStrField (getCell r "PATIENT")
  let encounterv ← optStrField (getCell r "ENCOUNTER")
  let codev ← pyInt (getCell r "CODE")
  let descriptionv ← pyStrField (getCell r "DESCRIPTION")
  let udiv ← pyStrField (getCell r "UDI")
  pure (DeviceProfile.mk startv patientv codev descriptionv udiv stopv encounterv)

/-- Embedding of `ImagingStudyProfile` record model. -/
structure ImagingStudyProfile where
  id : String
  date : DateTime
  patient : String
  bodysite_code : Int
  bodysite_description : String
  modality_code : String
  modality_description : String
  sop_code : String
  sop_description : String
  encounter : Option String
deriving DecidableEq, Repr

/-- Embedding of `ImagingStudyProfile.from_row`. -/
def ImagingStudyProfile.from_row (r : Row) : Except Err ImagingStudyProfile := do
  let idv ← pyStrField (getCell r "Id")
  let datev ← reqSome (← parse_datetime (getCell r "DATE"))
  let patientv ← pyStrField (getCell r "PATIENT")
  let encounterv ← optStrField (getCell r "ENCOUNTER")
  let bodysitecv ← pyInt (getCell r "BODYSITE_CODE")
  let bodysitedv ← pyStrField (getCell r "BODYSITE_DESCRIPTION")
  let modalitycv ← pyStrField (getCell r "MODALITY_CODE")
  let modalitydv ← pyStrField (getCell r "MODALITY_DESCRIPTION")
  let sopcv ← pyStrField (getCell r "SOP_CODE")
  let sopdv ← pyStrField (getCell r "SOP_DESCRIPTION")
  pure (ImagingStudyProfile.mk idv datev patientv bodysitecv bodysitedv modalitycv
    modalitydv sopcv sopdv encounterv)

/-- Embedding of `DataFrame.sample()`: one row drawn by numpy's global random
generator.  `np_draw` is the ambient draw of that generator (reduced
modulo the row count); the program never seeds this generator.
Sampling an empty frame raises `ValueError`. -/
def sampleRow (df : DataFrame) (np_draw : Nat) : Except Err Row :=
  if df.rows.isEmpty then Except.error (Err.valueError "empty sample")
  else Except.ok (df.rows.getD (np_draw % df.rows.length) [])

/-- Embedding of `get_encounter`: a specific encounter (first row whose `Id` matches,
`ValueError` if none matches) or — when the id is `None` or falsy —
a random row via `DataFrame.sample()`. -/
def get_encounter (dfs : Tables) (encounter_id : Option String) (np_draw : Nat) :
    Except Err Row :=
  match lookupTable dfs "encounters" with
  | none => Except.error (Err.keyError "encounters")
  | some encounters_df =>
    match encounter_id with
    | some eid =>
      if eid = "" then sampleRow encounters_df np_draw
      else
        match encounters_df.rows.filter (fun row => cellEqStr (getCell row "Id") eid) with
        | [] => Except.error
            (Err.valueError ("Encounter ID " ++ eid ++ " not found in the data"))
        | row :: _ => Except.ok row
    | none => sampleRow encounters_df np_draw

/-- Embedding of `get_encounter_related_data`: every table that has an `ENCOUNTER`
column, restricted to the rows whose `ENCOUNTER` equals the selected
encounter id, kept only when that restriction is non-empty. -/
def get_encounter_related_data (dfs : Tables) (encounter_id : String) : Tables :=
  dfs.filterMap (fun p =>
    if "ENCOUNTER" ∈ p.2.cols then
      let filtered : DataFrame :=
        DataFrame.mk p.2.cols
          (p.2.rows.filter (fun row => cellEqStr (getCell row "ENCOUNTER") encounter_id))
      if filtered.rows.isEmpty then none else some (p.1, filtered)
    else none)

/-- Embedding of `generate_narrative_for_table`: `None` when the table is not among
the encounter dataframes; otherwise build one profile per row (a parse
failure propagates) and call the narrator on the list. -/
def generate_narrative_for_table {P : Type} (table_name : String)
    (encounter_dataframes : Tables) (from_row : Row → Except Err P)
    (narrator_function : List P → String) : Except Err (Option String) :=
  match lookupTable encounter_dataframes table_name with
  | none => Except.ok none
  | some df => do
      let profiles ← df.rows.mapM from_row
      Except.ok (some (narrator_function profiles))

/-- The eight optional category-narrative slots handed to the
encounter-narrative fuser (`generate_encounter_narrative` keyword
arguments). -/
structure FuseSlots where
  observations_narrative : Option String
  immunizations_narrative : Option String
  medications_narrative : Option String
  procedures_narrative : Option String
  careplans_narrative : Option String
  conditions_narrative : Option String
  devices_narrative : Option String
  imaging_studies_narrative : Option String
deriving DecidableEq, Repr

/-- The category summarizers (each an opaque reasoning-engine call). -/
structure Narrators where
  observations : List ObservationProfile → String
  immunizations : List ImmunizationProfile → String
  medications : List MedicationProfile → String
  procedures : List ProcedureProfile → String
  careplans : List CarePlanProfile → String
  conditions : List ConditionProfile → String
  devices : List DeviceProfile → String
  imaging_studies : List ImagingStudyProfile → String

/-- The block of eight `generate_narrative_for_table` calls in `main`,
in source order, collecting the narrative slot for each category. -/
def categoryNarratives (encounter_dataframes : Tables) (nf : Narrators) :
    Except Err FuseSlots := do
  let observation_narrative ← generate_narrative_for_table "observations"
    encounter_dataframes ObservationProfile.from_row nf.observations
  let immunization_narrative ← generate_narrative_for_table "immunizations"
    encounter_dataframes ImmunizationProfile.from_row nf.immunizations
  let medication_narrative ← generate_narrative_for_table "medications"
    encounter_dataframes MedicationProfile.from_row nf.medications
  let procedure_narrative ← generate_narrative_for_table "procedures"
    encounter_dataframes ProcedureProfile.from_row nf.procedures
  let careplan_narrative ← generate_narrative_for_table "careplans"
    encounter_dataframes CarePlanProfile.from_row nf.careplans
  let condition_narrative ← generate_narrative_for_table "conditions"
    encounter_dataframes ConditionProfile.from_row nf.conditions
  let device_narrative ← generate_narrative_for_table "devices"
    encounter_dataframes DeviceProfile.from_row nf.devices
  let imaging_study_narrative ← generate_narrative_for_table "imaging_studies"
    encounter_dataframes ImagingStudyProfile.from_row nf.imaging_studies
  pure (FuseSlots.mk observation_narrative immunization_narrative medication_narrative
    procedure_narrative careplan_narrative condition_narrative device_narrative
    imaging_study_narrative)

/-- The reasoning-engine calls made up to (and feeding) the fuse stage. -/
structure PipelineLMs where
  category : Narrators
  patient_narrator : PatientProfile → String

/-- Embedding of `main` from encounter selection up to the point where the fused
encounter narrative is requested: returns exactly the data handed to
`generate_encounter_narrative` — the encounter profile, the patient
narrative, and the eight optional category-narrative slots. -/
def run_fuse_input (dfs : Tables) (encounter_id : Option String) (np_draw : Nat)
    (lms : PipelineLMs) : Except Err (EncounterProfile × String × FuseSlots) := do
  let encounter_row ← get_encounter dfs encounter_id np_draw
  let encounter_profile ← EncounterProfile.from_row encounter_row
  let patients_df ← match lookupTable dfs "patients" with
    | none => Except.error (Err.keyError "patients")
    | some df => Except.ok df
  let patient_row ←
    match patients_df.rows.filter
        (fun row => cellEqStr (getCell row "Id") encounter_profile.patient) with
    | [] => Except.error Err.indexError
    | row :: _ => Except.ok row
  let patient_profile ← PatientProfile.from_row patient_row
  let encounter_dataframes := get_encounter_related_data dfs encounter_profile.id
  let slots ← categoryNarratives encounter_dataframes lms.category
  let patient_narrative := lms.patient_narrator patient_profile
  pure (encounter_profile, patient_narrative, slots)

/-- The two pseudo-random states of the process: the state of Python's
`random` module and the state of numpy's global generator (the one
`DataFrame.sample()` draws from). -/
structure RngStates where
  python_random : Nat
  numpy_global : Nat
deriving DecidableEq, Repr

/-- Embedding of `random.seed(seed)`: resets the `random`-module state only; numpy's
global generator is untouched. -/
def random_seed (seed : Nat) (s : RngStates) : RngStates :=
  RngStates.mk seed s.numpy_global

/-- The selection prefix of `main`: `random.seed(ARGS.seed)` followed by
`get_encounter(dataframes, ARGS.encounter_id)` (whose sampling draws
from numpy's global generator). -/
def select_encounter_row (dfs : Tables) (encounter_id : Option String) (seed : Nat)
    (s : RngStates) : Except Err Row :=
  let s1 := random_seed seed s
  get_encounter dfs encounter_id s1.numpy_global

/-- One path component: a fixed name (output root, encounter id), a
variant directory named `str(n)`, or a document file named
`str(n) + ".txt"`. -/
inductive Seg : Type where
| s (x : String) : Seg
| v (n : Nat) : Seg
| f (n : Nat) : Seg
deriving DecidableEq, Repr

/-- A filesystem path, as its list of components. -/
abbrev FsPath := List Seg

/-- The filesystem: the list of paths (directories and files) that
exist.  `Path.exists()` is membership. -/
abbrev Fs := List FsPath

/-- Embedding of `output_dir.mkdir(parents=True, exist_ok=True)`: every non-empty
prefix of the path comes to exist. -/
def mkdirParents (fs : Fs) (p : FsPath) : Fs :=
  ((List.range p.length).map (fun k => p.take (k + 1))) ++ fs

/-- One `while <path(n)>.exists(): n += 1` scan: starting at `n`, step
past occupied slots until a free one; fuel bounds the walk (the calls
below pass enough fuel to always reach a free slot). -/
def find_free_slot (fs : Fs) (base : FsPath) (mk : Nat → Seg) :
    Nat → Nat → Nat
| 0, n => n
| fuel + 1, n =>
  if base ++ [mk n] ∈ fs then find_free_slot fs base mk fuel (n + 1) else n

/-- Embedding of `save_document` for one document of one encounter: scan for the
first variant directory that does not exist, create it (with parents),
scan for the first free document index inside it, and write the file.
Returns the new filesystem and the path written. -/
def save_document (fs : Fs) (output_root : String) (encounter_id : String) :
    Fs × FsPath :=
  let base : FsPath := [Seg.s output_root, Seg.s encounter_id]
  let variant := find_free_slot fs base Seg.v (fs.length + 1) 0
  let output_dir := base ++ [Seg.v variant]
  let fs1 := mkdirParents fs output_dir
  let document_counter := find_free_slot fs1 output_dir Seg.f (fs1.length + 1) 0
  let output_file := output_dir ++ [Seg.f document_counter]
  (output_file :: fs1, output_file)

/-- A filesystem is parent-closed when every existing non-root path has
an existing parent (true of a real filesystem). -/
def ClosedUnderParents (fs : Fs) : Prop :=
  ∀ (p : FsPath) (x : Seg), p ++ [x] ∈ fs → p ≠ [] → p ∈ fs

/-! ### Helper lemmas -/

theorem cellEqStr_true {c : Cell} {s : String} (h : cellEqStr c s = true) :
    c = Cell.str s := by
  cases c with
  | nan => simp [cellEqStr] at h
  | num q => simp [cellEqStr] at h
  | str t => simp [cellEqStr] at h; simp [h]

theorem generate_narrative_ok {P : Type} {tn : String} {dfs : Tables}
    {fr : Row → Except Err P} {nar : List P → String} {v : Option String}
    (h : generate_narrative_for_table tn dfs fr nar = Except.ok v) :
    (v = none ↔ lookupTable dfs tn = none) := by
  unfold generate_narrative_for_table at h
  cases hl : lookupTable dfs tn with
  | none =>
      rw [hl] at h
      simp at h
      simp [hl, h]
  | some df =>
      rw [hl] at h
      have h2 : (df.rows.mapM fr >>= fun profiles => Except.ok (some (nar profiles)))
          = Except.ok v := h
      cases hm : df.rows.mapM fr with
      | error e => rw [hm] at h2; simp at h2
      | ok ps =>
          rw [hm] at h2
          simp at h2
          rw [← h2]
          simp

/-- Claim C2: every dataframe returned by `get_encounter_related_data`
contains only rows whose `ENCOUNTER` column equals the selected
encounter id, and only tables that have an `ENCOUNTER` column with at
least one matching row appear in the result. -/
theorem claim_C2_encounter_filter_rows_belong :
    ∀ (dfs : Tables) (eid name : String) (df' : DataFrame),
      (name, df') ∈ get_encounter_related_data dfs eid →
        (∀ row ∈ df'.rows, getCell row "ENCOUNTER" = Cell.str eid) ∧
        df'.rows ≠ [] ∧
        ∃ df : DataFrame, (name, df) ∈ dfs ∧ "ENCOUNTER" ∈ df.cols ∧
          ∃ row ∈ df.rows, cellEqStr (getCell row "ENCOUNTER") eid = true := by
  intro dfs eid name df' hmem
  unfold get_encounter_related_data at hmem
  obtain ⟨⟨n0, df0⟩, hin, hfn⟩ := List.mem_filterMap.mp hmem
  have hfn2 : (if "ENCOUNTER" ∈ df0.cols then
      (if (List.filter (fun row => cellEqStr (getCell row "ENCOUNTER") eid)
            df0.rows).isEmpty = true
        then none
        else some (n0, DataFrame.mk df0.cols
          (List.filter (fun row => cellEqStr (getCell row "ENCOUNTER") eid) df0.rows)))
      else none) = some (name, df') := hfn
  by_cases hcol : "ENCOUNTER" ∈ df0.cols
  · rw [if_pos hcol] at hfn2
    by_cases hemp : (List.filter (fun row => cellEqStr (getCell row "ENCOUNTER") eid)
        df0.rows).isEmpty = true
    · rw [if_pos hemp] at hfn2
      exact absurd hfn2 (by simp)
    · rw [if_neg hemp] at hfn2
      injection hfn2 with h1
      injection h1 with hname hdf
      subst hname
      refine ⟨?_, ?_, df0, hin, hcol, ?_⟩
      · intro row hrow
        rw [← hdf] at hrow
        have hrow2 : row ∈ List.filter (fun row => cellEqStr (getCell row "ENCOUNTER") eid)
            df0.rows := hrow
        exact cellEqStr_true (List.mem_filter.mp hrow2).2
      · rw [← hdf]
        intro hnil
        have hnil2 : List.filter (fun row => cellEqStr (getCell row "ENCOUNTER") eid)
            df0.rows = [] := hnil
        rw [hnil2] at hemp
        exact hemp rfl
      · rcases hne : List.filter (fun row => cellEqStr (getCell row "ENCOUNTER") eid)
            df0.rows with _ | ⟨row, rest⟩
        · rw [hne] at hemp
          exact absurd rfl hemp
        · have hrow : row ∈ List.filter (fun row => cellEqStr (getCell row "ENCOUNTER") eid)
              df0.rows := by
            rw [hne]
            exact List.mem_cons_self _ _
          exact ⟨row, (List.mem_filter.mp hrow).1, (List.mem_filter.mp hrow).2⟩
  · rw [if_neg hcol] at hfn2
    exact absurd hfn2 (by simp)

/-- Concrete single-table dataset used to witness claim C2. -/
def obsRowA : Row :=
  [("ENCOUNTER", Cell.str "enc7"), ("PATIENT", Cell.str "pat1")]

/-- Concrete tables dict used to witness claim C2. -/
def dfsW2 : Tables :=
  [("observations", DataFrame.mk ["ENCOUNTER", "PATIENT"]
    [obsRowA, [("ENCOUNTER", Cell.str "other")]])]

theorem claim_C2_witness :
    ("observations", DataFrame.mk ["ENCOUNTER", "PATIENT"] [obsRowA]) ∈
      get_encounter_related_data dfsW2 "enc7" ∧
    (∀ row ∈ (DataFrame.mk ["ENCOUNTER", "PATIENT"] [obsRowA]).rows,
      getCell row "ENCOUNTER" = Cell.str "enc7") := by
  have hmem : ("observations", DataFrame.mk ["ENCOUNTER", "PATIENT"] [obsRowA]) ∈
      get_encounter_related_data dfsW2 "enc7" := by decide
  exact ⟨hmem, (claim_C2_encounter_filter_rows_belong dfsW2 "enc7" "observations"
    (DataFrame.mk ["ENCOUNTER", "PATIENT"] [obsRowA]) hmem).1⟩

/-- Claim C1: `generate_narrative_for_table` returns `None` exactly when
the table is not among the encounter's (non-empty, filtered) dataframes;
for an absent table the summarizer is never invoked (the result does not
depend on it at all); and each fuse slot produced by the per-category
block of `main` is `None` exactly when the corresponding table is absent
from `get_encounter_related_data`. -/
theorem claim_C1_absent_table_absent_narrative :
    (∀ (P : Type) (tn : String) (dfs : Tables) (fr : Row → Except Err P)
      (nar : List P → String),
      generate_narrative_for_table tn dfs fr nar = Except.ok none ↔
        lookupTable dfs tn = none) ∧
    (∀ (P Q : Type) (tn : String) (dfs : Tables) (fr : Row → Except Err P)
      (fr' : Row → Except Err Q) (nar : List P → String) (nar' : List Q → String),
      lookupTable dfs tn = none →
        generate_narrative_for_table tn dfs fr nar =
          generate_narrative_for_table tn dfs fr' nar') ∧
    (∀ (dfs : Tables) (eid : String) (nf : Narrators) (slots : FuseSlots),
      categoryNarratives (get_encounter_related_data dfs eid) nf = Except.ok slots →
        (slots.observations_narrative = none ↔
          lookupTable (get_encounter_related_data dfs eid) "observations" = none) ∧
        (slots.immunizations_narrative = none ↔
          lookupTable (get_encounter_related_data dfs eid) "immunizations" = none) ∧
        (slots.medications_narrative = none ↔
          lookupTable (get_encounter_related_data dfs eid) "medications" = none) ∧
        (slots.procedures_narrative = none ↔
          lookupTable (get_encounter_related_data dfs eid) "procedures" = none) ∧
        (slots.careplans_narrative = none ↔
          lookupTable (get_encounter_related_data dfs eid) "careplans" = none) ∧
        (slots.conditions_narrative = none ↔
          lookupTable (get_encounter_related_data dfs eid) "conditions" = none) ∧
        (slots.devices_narrative = none ↔
          lookupTable (get_encounter_related_data dfs eid) "devices" = none) ∧
        (slots.imaging_studies_narrative = none ↔
          lookupTable (get_encounter_related_data dfs eid) "imaging_studies" = none)) := by
  refine ⟨?_, ?_, ?_⟩
  · intro P tn dfs fr nar
    constructor
    · intro h
      exact (generate_narrative_ok h).mp rfl
    · intro h
      unfold generate_narrative_for_table
      rw [h]
  · intro P Q tn dfs fr fr' nar nar' h
    unfold generate_narrative_for_table
    rw [h]
  · intro dfs eid nf slots h
    unfold categoryNarratives at h
    obtain ⟨v1, h1, h⟩ := bind_ok h
    obtain ⟨v2, h2, h⟩ := bind_ok h
    obtain ⟨v3, h3, h⟩ := bind_ok h
    obtain ⟨v4, h4, h⟩ := bind_ok h
    obtain ⟨v5, h5, h⟩ := bind_ok h
    obtain ⟨v6, h6, h⟩ := bind_ok h
    obtain ⟨v7, h7, h⟩ := bind_ok h
    obtain ⟨v8, h8, h⟩ := bind_ok h
    simp at h
    rw [← h]
    exact ⟨generate_narrative_ok h1, generate_narrative_ok h2, generate_narrative_ok h3,
      generate_narrative_ok h4, generate_narrative_ok h5, generate_narrative_ok h6,
      generate_narrative_ok h7, generate_narrative_ok h8⟩

/-- Constant (input-ignoring) category narrators for witnesses. -/
def nfConst : Narrators :=
  Narrators.mk (fun _ => "o") (fun _ => "i") (fun _ => "m") (fun _ => "p")
    (fun _ => "c") (fun _ => "d") (fun _ => "v") (fun _ => "g")

theorem claim_C1_witness :
    categoryNarratives (get_encounter_related_data [] "e") nfConst =
      Except.ok (FuseSlots.mk none none none none none none none none) ∧
    ((FuseSlots.mk none none none none none none none none).observations_narrative = none ↔
      lookupTable (get_encounter_related_data [] "e") "observations" = none) := by
  have h : categoryNarratives (get_encounter_related_data [] "e") nfConst =
      Except.ok (FuseSlots.mk none none none none none none none none) := rfl
  exact ⟨h, (claim_C1_absent_table_absent_narrative.2.2 [] "e" nfConst
    (FuseSlots.mk none none none none none none none none) h).1⟩

theorem get_encounter_eq_match (dfs : Tables) (eid : String) (np : Nat) (df : DataFrame)
    (hlt : lookupTable dfs "encounters" = some df) (heid : eid ≠ "") :
    get_encounter dfs (some eid) np =
      (match List.filter (fun row => cellEqStr (getCell row "Id") eid) df.rows with
       | [] => Except.error
           (Err.valueError ("Encounter ID " ++ eid ++ " not found in the data"))
       | row :: _ => Except.ok row) := by
  unfold get_encounter
  rw [hlt]
  show (if eid = "" then sampleRow df np
    else match List.filter (fun row => cellEqStr (getCell row "Id") eid) df.rows with
      | [] => Except.error
          (Err.valueError ("Encounter ID " ++ eid ++ " not found in the data"))
      | row :: _ => Except.ok row) = _
  rw [if_neg heid]

theorem get_encounter_not_found (dfs : Tables) (eid : String) (np : Nat) (df : DataFrame)
    (hlt : lookupTable dfs "encounters" = some df) (heid : eid ≠ "")
    (hnone : ∀ row ∈ df.rows, cellEqStr (getCell row "Id") eid = false) :
    get_encounter dfs (some eid) np =
      Except.error (Err.valueError ("Encounter ID " ++ eid ++ " not found in the data")) := by
  rw [get_encounter_eq_match dfs eid np df hlt heid]
  have hf : List.filter (fun row => cellEqStr (getCell row "Id") eid) df.rows = [] := by
    rw [List.filter_eq_nil_iff]
    intro a ha
    simp [hnone a ha]
  rw [hf]

/-- Concrete encounters table used in the C3 counterexample. -/
def dfsC3 : Tables :=
  [("encounters", DataFrame.mk ["Id"] [[("Id", Cell.str "e1")]])]

/-- Claim C3 counterexample: an explicitly supplied encounter id that is
absent from the encounters table makes `get_encounter` raise a
`ValueError`, which is not a `LookupError` — so the run does not abort
with a `LookupError` as claimed. -/
theorem claim_C3_counterexample :
    get_encounter dfsC3 (some "missing") 0 =
      Except.error (Err.valueError "Encounter ID missing not found in the data") ∧
    Err.isLookupError
      (Err.valueError "Encounter ID missing not found in the data") = false :=
  ⟨rfl, rfl⟩

/-- Claim C3 (amended): an explicitly supplied identifier present in the
encounters table makes `get_encounter` return a row whose `Id` equals
it; an absent identifier makes the run abort with a `ValueError` (not a
`LookupError`) — and it does so before any reasoning-engine call: the
failing run's outcome is the same for every choice of narrator
functions. -/
theorem claim_C3_amended_value_error :
    (∀ (dfs : Tables) (eid : String) (np : Nat) (df : DataFrame),
      lookupTable dfs "encounters" = some df → eid ≠ "" →
      (∃ row ∈ df.rows, cellEqStr (getCell row "Id") eid = true) →
      ∃ row, get_encounter dfs (some eid) np = Except.ok row ∧
        getCell row "Id" = Cell.str eid) ∧
    (∀ (dfs : Tables) (eid : String) (np : Nat) (df : DataFrame),
      lookupTable dfs "encounters" = some df → eid ≠ "" →
      (∀ row ∈ df.rows, cellEqStr (getCell row "Id") eid = false) →
      get_encounter dfs (some eid) np =
        Except.error (Err.valueError ("Encounter ID " ++ eid ++ " not found in the data"))
      ∧ Err.isLookupError
          (Err.valueError ("Encounter ID " ++ eid ++ " not found in the data")) = false) ∧
    (∀ (dfs : Tables) (eid : String) (np : Nat) (df : DataFrame),
      lookupTable dfs "encounters" = some df → eid ≠ "" →
      (∀ row ∈ df.rows, cellEqStr (getCell row "Id") eid = false) →
      ∀ (lms lms' : PipelineLMs),
        run_fuse_input dfs (some eid) np lms = run_fuse_input dfs (some eid) np lms' ∧
        run_fuse_input dfs (some eid) np lms =
          Except.error
            (Err.valueError ("Encounter ID " ++ eid ++ " not found in the data"))) := by
  refine ⟨?_, ?_, ?_⟩
  · intro dfs eid np df hlt heid hex
    rw [get_encounter_eq_match dfs eid np df hlt heid]
    rcases hf : List.filter (fun row => cellEqStr (getCell row "Id") eid) df.rows
        with _ | ⟨r, rest⟩
    · exfalso
      obtain ⟨row, hr, hp⟩ := hex
      have : row ∈ List.filter (fun row => cellEqStr (getCell row "Id") eid) df.rows :=
        List.mem_filter.mpr ⟨hr, hp⟩
      rw [hf] at this
      exact absurd this (List.not_mem_nil row)
    · refine ⟨r, rfl, ?_⟩
      have : r ∈ List.filter (fun row => cellEqStr (getCell row "Id") eid) df.rows := by
        rw [hf]
        exact List.mem_cons_self _ _
      exact cellEqStr_true (List.mem_filter.mp this).2
  · intro dfs eid np df hlt heid hnone
    exact ⟨get_encounter_not_found dfs eid np df hlt heid hnone, rfl⟩
  · intro dfs eid np df hlt heid hnone lms lms'
    have herr := get_encounter_not_found dfs eid np df hlt heid hnone
    unfold run_fuse_input
    rw [herr]
    simp

theorem claim_C3_witness :
    lookupTable dfsC3 "encounters" = some (DataFrame.mk ["Id"] [[("Id", Cell.str "e1")]]) ∧
    ("e1" : String) ≠ "" ∧
    (∃ row ∈ (DataFrame.mk ["Id"] [[("Id", Cell.str "e1")]]).rows,
      cellEqStr (getCell row "Id") "e1" = true) ∧
    ∃ row, get_encounter dfsC3 (some "e1") 0 = Except.ok row ∧
      getCell row "Id" = Cell.str "e1" := by
  refine ⟨by decide, by decide, by decide, ?_⟩
  exact claim_C3_amended_value_error.1 dfsC3 "e1" 0
    (DataFrame.mk ["Id"] [[("Id", Cell.str "e1")]]) (by decide) (by decide) (by decide)

/-- Concrete two-row encounters table used for claim C4. -/
def dfsC4 : Tables :=
  [("encounters", DataFrame.mk ["Id"]
    [[("Id", Cell.str "e0")], [("Id", Cell.str "e1")]])]

/-- Claim C4 (code bug): `main` seeds only Python's `random` module, but
the random encounter selection draws from numpy's global generator
(`DataFrame.sample()`), which the seed never touches.  With the same
seed 313, the same dataset and no explicit id, two runs whose ambient
numpy state differs select different encounter rows — the selection is
not a function of the seed and the dataset. -/
theorem claim_C4_seed_does_not_determine_selection :
    select_encounter_row dfsC4 none 313 (RngStates.mk 0 0) =
      Except.ok [("Id", Cell.str "e0")] ∧
    select_encounter_row dfsC4 none 313 (RngStates.mk 0 1) =
      Except.ok [("Id", Cell.str "e1")] ∧
    ([("Id", Cell.str "e0")] : Row) ≠ [("Id", Cell.str "e1")] :=
  ⟨rfl, rfl, by decide⟩

theorem find_free_slot_not_mem (fs : Fs) (base : FsPath) (mk : Nat → Seg) :
    ∀ (fuel n : Nat), (∃ k, n ≤ k ∧ k < n + fuel ∧ base ++ [mk k] ∉ fs) →
      base ++ [mk (find_free_slot fs base mk fuel n)] ∉ fs := by
  intro fuel
  induction fuel with
  | zero =>
      intro n h
      obtain ⟨k, h1, h2, _⟩ := h
      omega
  | succ fuel ih =>
      intro n h
      simp only [find_free_slot]
      by_cases hmem : base ++ [mk n] ∈ fs
      · rw [if_pos hmem]
        obtain ⟨k, h1, h2, h3⟩ := h
        have hkn : k ≠ n := by
          intro he
          rw [he] at h3
          exact h3 hmem
        exact ih (n + 1) ⟨k, by omega, by omega, h3⟩
      · rw [if_neg hmem]
        exact hmem

theorem exists_free_slot (fs : Fs) (base : FsPath) (mk : Nat → Seg)
    (hinj : Function.Injective mk) :
    ∃ k, k < fs.length + 1 ∧ base ++ [mk k] ∉ fs := by
  by_contra hc
  push_neg at hc
  have hcard : (Finset.range (fs.length + 1)).card ≤ fs.toFinset.card := by
    apply Finset.card_le_card_of_injOn (fun k => base ++ [mk k])
    · intro k hk
      rw [List.mem_toFinset]
      exact hc k (Finset.mem_range.mp hk)
    · intro a _ b _ hab
      have h1 : [mk a] = [mk b] := List.append_cancel_left hab
      have h2 : mk a = mk b := by injection h1
      exact hinj h2
  rw [Finset.card_range] at hcard
  have := fs.toFinset_card_le
  omega

theorem segV_injective : Function.Injective Seg.v := by
  intro a b h
  injection h

theorem segF_injective : Function.Injective Seg.f := by
  intro a b h
  injection h

/-- The variant index chosen by one `save_document` call. -/
def sdVariant (fs : Fs) (root eid : String) : Nat :=
  find_free_slot fs [Seg.s root, Seg.s eid] Seg.v (fs.length + 1) 0

/-- The variant directory created by one `save_document` call. -/
def sdDir (fs : Fs) (root eid : String) : FsPath :=
  [Seg.s root, Seg.s eid, Seg.v (sdVariant fs root eid)]

/-- The filesystem after the `mkdir` of one `save_document` call. -/
def sdFs1 (fs : Fs) (root eid : String) : Fs :=
  mkdirParents fs (sdDir fs root eid)

/-- The document index chosen by one `save_document` call. -/
def sdCounter (fs : Fs) (root eid : String) : Nat :=
  find_free_slot (sdFs1 fs root eid) (sdDir fs root eid) Seg.f
    ((sdFs1 fs root eid).length + 1) 0

theorem save_document_unfolded (fs : Fs) (root eid : String) :
    save_document fs root eid =
      ((sdDir fs root eid ++ [Seg.f (sdCounter fs root eid)]) :: sdFs1 fs root eid,
       sdDir fs root eid ++ [Seg.f (sdCounter fs root eid)]) := rfl

theorem sdFs1_eq (fs : Fs) (root eid : String) :
    sdFs1 fs root eid =
      [[Seg.s root], [Seg.s root, Seg.s eid], sdDir fs root eid] ++ fs := rfl

theorem sdDir_not_mem (fs : Fs) (root eid : String) : sdDir fs root eid ∉ fs := by
  have hex := exists_free_slot fs [Seg.s root, Seg.s eid] Seg.v segV_injective
  obtain ⟨k, hk, hfree⟩ := hex
  exact find_free_slot_not_mem fs [Seg.s root, Seg.s eid] Seg.v (fs.length + 1) 0
    ⟨k, Nat.zero_le k, by omega, hfree⟩

theorem sdFile_not_mem (fs : Fs) (root eid : String) :
    sdDir fs root eid ++ [Seg.f (sdCounter fs root eid)] ∉ sdFs1 fs root eid := by
  have hex := exists_free_slot (sdFs1 fs root eid) (sdDir fs root eid) Seg.f segF_injective
  obtain ⟨k, hk, hfree⟩ := hex
  exact find_free_slot_not_mem (sdFs1 fs root eid) (sdDir fs root eid) Seg.f
    ((sdFs1 fs root eid).length + 1) 0 ⟨k, Nat.zero_le k, by omega, hfree⟩

theorem save_document_spec (fs : Fs) (root eid : String) :
    (save_document fs root eid).2 ∉ fs ∧
    (save_document fs root eid).2 ∈ (save_document fs root eid).1 ∧
    ∀ p ∈ fs, p ∈ (save_document fs root eid).1 := by
  rw [save_document_unfolded]
  refine ⟨?_, List.mem_cons_self _ _, ?_⟩
  · intro hmem
    apply sdFile_not_mem fs root eid
    rw [sdFs1_eq]
    exact List.mem_append_right _ hmem
  · intro p hp
    apply List.mem_cons_of_mem
    rw [sdFs1_eq]
    exact List.mem_append_right _ hp

/-- Claim C7: `save_document` never overwrites.  Each call writes to a
path that did not exist before the call and that exists afterwards,
everything existing before is preserved, and a second call (same run or
a later run, any encounter) writes to a path that is fresh for the
filesystem the first call left — in particular distinct from the first
call's path. -/
theorem claim_C7_save_never_overwrites :
    ∀ (fs : Fs) (root eid root2 eid2 : String),
      (save_document fs root eid).2 ∉ fs ∧
      (save_document fs root eid).2 ∈ (save_document fs root eid).1 ∧
      (∀ p ∈ fs, p ∈ (save_document fs root eid).1) ∧
      (save_document (save_document fs root eid).1 root2 eid2).2 ∉
        (save_document fs root eid).1 ∧
      (save_document (save_document fs root eid).1 root2 eid2).2 ≠
        (save_document fs root eid).2 := by
  intro fs root eid root2 eid2
  obtain ⟨h1, h2, h3⟩ := save_document_spec fs root eid
  obtain ⟨g1, g2, g3⟩ := save_document_spec (save_document fs root eid).1 root2 eid2
  refine ⟨h1, h2, h3, g1, ?_⟩
  intro he
  rw [he] at g1
  exact g1 h2

theorem claim_C7_witness :
    (save_document [] "o" "E").2 ∉ ([] : Fs) ∧
    (save_document [] "o" "E").2 ∈ (save_document [] "o" "E").1 ∧
    (∀ p ∈ ([] : Fs), p ∈ (save_document [] "o" "E").1) ∧
    (save_document (save_document [] "o" "E").1 "o" "E").2 ∉
      (save_document [] "o" "E").1 ∧
    (save_document (save_document [] "o" "E").1 "o" "E").2 ≠
      (save_document [] "o" "E").2 :=
  claim_C7_save_never_overwrites [] "o" "E" "o" "E"

theorem sdCounter_eq_zero (fs : Fs) (root eid : String)
    (hcup : ClosedUnderParents fs) : sdCounter fs root eid = 0 := by
  unfold sdCounter
  simp only [find_free_slot]
  rw [if_neg]
  intro hmem
  rw [sdFs1_eq] at hmem
  rcases List.mem_append.mp hmem with hin | hin
  · have hlen : (sdDir fs root eid ++ [Seg.f 0]).length = 4 := by
      simp [sdDir]
    simp only [List.mem_cons, List.not_mem_nil, or_false] at hin
    rcases hin with h | h | h
    · rw [h] at hlen
      simp at hlen
    · rw [h] at hlen
      simp at hlen
    · rw [h] at hlen
      simp [sdDir] at hlen
  · have hdir : sdDir fs root eid ∈ fs :=
      hcup (sdDir fs root eid) (Seg.f 0) hin (by simp [sdDir])
    exact sdDir_not_mem fs root eid hdir

theorem cup_preserved (fs : Fs) (root eid : String) (hcup : ClosedUnderParents fs) :
    ClosedUnderParents (save_document fs root eid).1 := by
  rw [save_document_unfolded]
  intro p x hmem hne
  rw [sdFs1_eq] at hmem
  rcases List.mem_cons.mp hmem with hfile | hin
  · obtain ⟨hp, _⟩ := List.append_inj' hfile rfl
    rw [hp]
    show sdDir fs root eid ∈ (sdDir fs root eid ++ [Seg.f (sdCounter fs root eid)]) ::
      sdFs1 fs root eid
    rw [sdFs1_eq]
    apply List.mem_cons_of_mem
    exact List.mem_append_left _ (by simp)
  · rcases List.mem_append.mp hin with hpre | hfs
    · simp only [List.mem_cons, List.not_mem_nil, or_false] at hpre
      rcases hpre with h | h | h
      · exfalso
        apply hne
        have hlen : (p ++ [x]).length = 1 := by rw [h]; rfl
        simp at hlen
        exact hlen
      · have h2 : p ++ [x] = [Seg.s root] ++ [Seg.s eid] := h
        obtain ⟨hp, _⟩ := List.append_inj' h2 rfl
        rw [hp]
        show [Seg.s root] ∈ (sdDir fs root eid ++ [Seg.f (sdCounter fs root eid)]) ::
          sdFs1 fs root eid
        rw [sdFs1_eq]
        apply List.mem_cons_of_mem
        exact List.mem_append_left _ (by simp)
      · have h2 : p ++ [x] = [Seg.s root, Seg.s eid] ++
            [Seg.v (sdVariant fs root eid)] := h
        obtain ⟨hp, _⟩ := List.append_inj' h2 rfl
        rw [hp]
        show [Seg.s root, Seg.s eid] ∈
          (sdDir fs root eid ++ [Seg.f (sdCounter fs root eid)]) :: sdFs1 fs root eid
        rw [sdFs1_eq]
        apply List.mem_cons_of_mem
        exact List.mem_append_left _ (by simp)
    · have hp : p ∈ fs := hcup p x hfs hne
      show p ∈ (sdDir fs root eid ++ [Seg.f (sdCounter fs root eid)]) :: sdFs1 fs root eid
      rw [sdFs1_eq]
      apply List.mem_cons_of_mem
      exact List.mem_append_right _ hp

/-- Claim C6 counterexample: starting from an empty filesystem, a single
run that saves two documents for encounter `E1` puts them in two
different variant directories (`E1/0/0.txt` then `E1/1/0.txt`) — not in
one variant directory with an incrementing per-document index. -/
theorem claim_C6_counterexample :
    (save_document [] "out" "E1").2 = [Seg.s "out", Seg.s "E1", Seg.v 0, Seg.f 0] ∧
    (save_document (save_document [] "out" "E1").1 "out" "E1").2 =
      [Seg.s "out", Seg.s "E1", Seg.v 1, Seg.f 0] ∧
    (save_document [] "out" "E1").2.take 3 ≠
      (save_document (save_document [] "out" "E1").1 "out" "E1").2.take 3 := by
  refine ⟨rfl, rfl, ?_⟩
  decide

/-- Claim C6 (amended): every `save_document` call allocates a fresh
variant directory of its own (the first index whose directory does not
yet exist) and writes the document as `0.txt` inside it; two consecutive
saves for the same encounter — whether two documents of one run or two
one-document runs — therefore land in sibling variant directories with
distinct indices, such as `<encounter>/0/` and `<encounter>/1/`. -/
theorem claim_C6_amended_fresh_variant_per_save :
    ∀ (fs : Fs) (root eid : String), ClosedUnderParents fs →
      ∃ k k', (save_document fs root eid).2 =
          [Seg.s root, Seg.s eid, Seg.v k, Seg.f 0] ∧
        [Seg.s root, Seg.s eid, Seg.v k] ∉ fs ∧
        (save_document (save_document fs root eid).1 root eid).2 =
          [Seg.s root, Seg.s eid, Seg.v k', Seg.f 0] ∧
        k ≠ k' := by
  intro fs root eid hcup
  have hcup2 := cup_preserved fs root eid hcup
  refine ⟨sdVariant fs root eid, sdVariant (save_document fs root eid).1 root eid,
    ?_, sdDir_not_mem fs root eid, ?_, ?_⟩
  · have h : (save_document fs root eid).2 =
        sdDir fs root eid ++ [Seg.f (sdCounter fs root eid)] := rfl
    rw [h, sdCounter_eq_zero fs root eid hcup]
    rfl
  · have h : (save_document (save_document fs root eid).1 root eid).2 =
        sdDir (save_document fs root eid).1 root eid ++
          [Seg.f (sdCounter (save_document fs root eid).1 root eid)] := rfl
    rw [h, sdCounter_eq_zero (save_document fs root eid).1 root eid hcup2]
    rfl
  · intro he
    apply sdDir_not_mem (save_document fs root eid).1 root eid
    have hdirmem : sdDir fs root eid ∈ (save_document fs root eid).1 := by
      rw [save_document_unfolded]
      apply List.mem_cons_of_mem
      rw [sdFs1_eq]
      exact List.mem_append_left _ (by simp)
    have : sdDir (save_document fs root eid).1 root eid = sdDir fs root eid := by
      unfold sdDir
      rw [← he]
    rw [this]
    exact hdirmem

theorem claim_C6_witness :
    ClosedUnderParents ([] : Fs) ∧
    ∃ k k', (save_document [] "out" "E1").2 =
        [Seg.s "out", Seg.s "E1", Seg.v k, Seg.f 0] ∧
      [Seg.s "out", Seg.s "E1", Seg.v k] ∉ ([] : Fs) ∧
      (save_document (save_document [] "out" "E1").1 "out" "E1").2 =
        [Seg.s "out", Seg.s "E1", Seg.v k', Seg.f 0] ∧
      k ≠ k' := by
  have hcup : ClosedUnderParents ([] : Fs) := by
    intro p x hmem
    simp at hmem
  exact ⟨hcup, claim_C6_amended_fresh_variant_per_save [] "out" "E1" hcup⟩

/-! ### String-parsing lemmas -/

theorem pySplitOn_no_sep (sep : Char) (xs : List Char) (h : sep ∉ xs) :
    pySplitOn sep xs = [xs] := by
  induction xs with
  | nil => rfl
  | cons c rest ih =>
      have hc : ¬(c = sep) := by
        intro he
        exact h (by rw [he]; exact List.mem_cons_self _ _)
      have hrest : sep ∉ rest := fun hm => h (List.mem_cons_of_mem _ hm)
      simp only [pySplitOn, ih hrest, if_neg hc]
      rfl

theorem pySplitOn_append (sep : Char) (xs ys : List Char) (h : sep ∉ xs) :
    pySplitOn sep (xs ++ sep :: ys) = xs :: pySplitOn sep ys := by
  induction xs with
  | nil =>
      rw [List.nil_append]
      simp [pySplitOn]
  | cons c rest ih =>
      have hc : ¬(c = sep) := by
        intro he
        exact h (by rw [he]; exact List.mem_cons_self _ _)
      have hrest : sep ∉ rest := fun hm => h (List.mem_cons_of_mem _ hm)
      rw [List.cons_append]
      simp only [pySplitOn, ih hrest, if_neg hc]
      rfl

theorem dropWhile_replicate_append (p : Char → Bool) (a : Char) (h : p a = true)
    (k : Nat) (xs : List Char) :
    List.dropWhile p (List.replicate k a ++ xs) = List.dropWhile p xs := by
  induction k with
  | zero => rfl
  | succ k ih => simp [List.replicate_succ, List.dropWhile_cons, h, ih]

theorem rstripZ_append_replicate (l : List Char) (k : Nat) :
    rstripZ (l ++ List.replicate k 'Z') = rstripZ l := by
  unfold rstripZ
  rw [List.reverse_append, List.reverse_replicate,
    dropWhile_replicate_append _ 'Z' (by decide)]

theorem rstripZ_no_trailing (l : List Char) (h : l.getLast? ≠ some 'Z') :
    rstripZ l = l := by
  unfold rstripZ
  rcases hl : l.reverse with _ | ⟨c, rest⟩
  · have : l = [] := by simpa using congrArg List.reverse hl
    rw [this]
    rfl
  · have hlast : l.getLast? = some c := by
      rw [← List.head?_reverse, hl]
      rfl
    have hcne : c ≠ 'Z' := by
      intro he
      rw [he] at hlast
      exact h hlast
    rw [List.dropWhile_cons, if_neg (by simp [hcne]), ← hl, List.reverse_reverse]

theorem getLast?_append_right (l z : List Char) (h : z ≠ []) :
    (l ++ z).getLast? = z.getLast? := by
  rw [← List.head?_reverse, ← List.head?_reverse, List.reverse_append]
  rcases hz : z.reverse with _ | ⟨c, t⟩
  · exact absurd (by simpa using congrArg List.reverse hz) h
  · rfl

theorem isDigits_ne_nil {l : List Char} (h : isDigits l = true) : l ≠ [] := by
  intro he
  rw [he] at h
  simp [isDigits] at h

theorem isDigits_mem {l : List Char} (h : isDigits l = true) :
    ∀ c ∈ l, c.isDigit = true := by
  unfold isDigits at h
  rw [Bool.and_eq_true] at h
  exact fun c hc => List.all_eq_true.mp h.2 c hc

theorem not_mem_of_isDigits {l : List Char} (h : isDigits l = true) (ch : Char)
    (hch : ch.isDigit = false) : ch ∉ l := by
  intro hm
  rw [isDigits_mem h ch hm] at hch
  cases hch

theorem isDigits_getLast {l : List Char} (h : isDigits l = true) :
    ∃ d, l.getLast? = some d ∧ d.isDigit = true := by
  have hne := isDigits_ne_nil h
  refine ⟨l.getLast hne, List.getLast?_eq_getLast l hne, ?_⟩
  exact isDigits_mem h _ (List.getLast_mem hne)

theorem pyIntOfChars_digits {l : List Char} (h : isDigits l = true) :
    pyIntOfChars l = Except.ok (digitsVal l : Int) := by
  unfold pyIntOfChars
  split
  · exfalso
    have hd := isDigits_mem h '-' (List.mem_cons_self _ _)
    exact absurd hd (by decide)
  · exfalso
    have hd := isDigits_mem h '+' (List.mem_cons_self _ _)
    exact absurd hd (by decide)
  · rw [if_pos h]

theorem mk_ne_empty {l : List Char} (h : l ≠ []) : String.mk l ≠ "" := by
  intro he
  exact h (congrArg String.data he)

theorem parse_datetime_str (s : String) (hs : s ≠ "") :
    parse_datetime (Cell.str s) = (datetime_of_chars s.data).map (fun d => some d) := by
  show (if s = "" then Except.ok none
    else (datetime_of_chars s.data).map (fun d => some d)) = _
  rw [if_neg hs]

/-- Claim C10: `parse_datetime` yields `None` exactly on NaN and the
empty string; every number of trailing `Z` characters parses the same
(all are stripped); and a string of the shape `Y-M-D` `T` `H:M:S` with
digit fields parses to the `DateTime` whose six components are those
integer fields. -/
theorem claim_C10_parse_datetime_spec :
    (∀ c : Cell, parse_datetime c = Except.ok none ↔ (c = Cell.nan ∨ c = Cell.str "")) ∧
    (∀ (s : String) (k : Nat), s ≠ "" →
      parse_datetime (Cell.str (String.mk (s.data ++ List.replicate k 'Z'))) =
        parse_datetime (Cell.str s)) ∧
    (∀ dy dm dd th tm ts : List Char,
      isDigits dy = true → isDigits dm = true → isDigits dd = true →
      isDigits th = true → isDigits tm = true → isDigits ts = true →
      parse_datetime (Cell.str (String.mk
          (dy ++ ('-' :: (dm ++ ('-' :: (dd ++ ('T' :: (th ++ (':' ::
            (tm ++ (':' :: ts)))))))))))) =
        Except.ok (some (DateTime.mk (digitsVal dy) (digitsVal dm) (digitsVal dd)
          (digitsVal th) (digitsVal tm) (digitsVal ts)))) := by
  refine ⟨?_, ?_, ?_⟩
  · intro c
    constructor
    · intro h
      cases c with
      | nan => exact Or.inl rfl
      | num q => exact absurd h (by simp [parse_datetime])
      | str s =>
          by_cases hs : s = ""
          · exact Or.inr (by rw [hs])
          · exfalso
            rw [parse_datetime_str s hs] at h
            cases hd : datetime_of_chars s.data with
            | error e => rw [hd] at h; simp [Except.map] at h
            | ok d => rw [hd] at h; simp [Except.map] at h
    · intro h
      rcases h with h | h
      · rw [h]
        rfl
      · rw [h]
        rfl
  · intro s k hs
    have hd : s.data ≠ [] := by
      intro h0
      exact hs (String.ext h0)
    have hd2 : s.data ++ List.replicate k 'Z' ≠ [] := by
      intro h0
      exact hd (List.append_eq_nil.mp h0).1
    rw [parse_datetime_str _ (mk_ne_empty hd2), parse_datetime_str s hs]
    rw [show (String.mk (s.data ++ List.replicate k 'Z')).data =
      s.data ++ List.replicate k 'Z' from rfl]
    have h3 : datetime_of_chars (s.data ++ List.replicate k 'Z') =
        datetime_of_chars s.data := by
      unfold datetime_of_chars
      rw [rstripZ_append_replicate]
    rw [h3]
  · intro dy dm dd th tm ts h1 h2 h3 h4 h5 h6
    set dateChars := dy ++ ('-' :: (dm ++ ('-' :: dd))) with hdate
    set timeChars := th ++ (':' :: (tm ++ (':' :: ts))) with htime
    set big := dy ++ ('-' :: (dm ++ ('-' :: (dd ++ ('T' :: timeChars))))) with hbig
    have hbigne : big ≠ [] := by
      intro h0
      exact isDigits_ne_nil h1 (List.append_eq_nil.mp h0).1
    have hts : ts ≠ [] := isDigits_ne_nil h6
    obtain ⟨d, hdlast, hddig⟩ := isDigits_getLast h6
    have hlast : big.getLast? = some d := by
      have hsplit : big =
          (dy ++ ('-' :: (dm ++ ('-' :: (dd ++ ('T' :: (th ++ (':' ::
            (tm ++ [':']))))))))) ++ ts := by
        simp [hbig, htime, List.append_assoc]
      rw [hsplit, getLast?_append_right _ _ hts, hdlast]
    have hnotZ : big.getLast? ≠ some 'Z' := by
      rw [hlast]
      intro he
      injection he with he2
      rw [he2] at hddig
      exact absurd hddig (by decide)
    have hstrip : rstripZ big = big := rstripZ_no_trailing big hnotZ
    have hTdate : 'T' ∉ dateChars := by
      intro hm
      rw [hdate] at hm
      simp only [List.mem_append, List.mem_cons] at hm
      rcases hm with hm | hm | hm | hm
      · exact not_mem_of_isDigits h1 'T' (by decide) hm
      · exact absurd hm (by decide)
      · exact not_mem_of_isDigits h2 'T' (by decide) hm
      · rcases hm with hm | hm
        · exact absurd hm (by decide)
        · exact not_mem_of_isDigits h3 'T' (by decide) hm
    have hTtime : 'T' ∉ timeChars := by
      intro hm
      rw [htime] at hm
      simp only [List.mem_append, List.mem_cons] at hm
      rcases hm with hm | hm | hm | hm
      · exact not_mem_of_isDigits h4 'T' (by decide) hm
      · exact absurd hm (by decide)
      · exact not_mem_of_isDigits h5 'T' (by decide) hm
      · rcases hm with hm | hm
        · exact absurd hm (by decide)
        · exact not_mem_of_isDigits h6 'T' (by decide) hm
    have hshape : big = dateChars ++ ('T' :: timeChars) := by
      simp [hbig, hdate, List.append_assoc]
    have hsplitT : pySplitOn 'T' (rstripZ big) = [dateChars, timeChars] := by
      rw [hstrip, hshape, pySplitOn_append _ _ _ hTdate, pySplitOn_no_sep _ _ hTtime]
    have hsplitD : pySplitOn '-' dateChars = [dy, dm, dd] := by
      rw [hdate, pySplitOn_append _ _ _ (not_mem_of_isDigits h1 '-' (by decide)),
        pySplitOn_append _ _ _ (not_mem_of_isDigits h2 '-' (by decide)),
        pySplitOn_no_sep _ _ (not_mem_of_isDigits h3 '-' (by decide))]
    have hsplitC : pySplitOn ':' timeChars = [th, tm, ts] := by
      rw [htime, pySplitOn_append _ _ _ (not_mem_of_isDigits h4 ':' (by decide)),
        pySplitOn_append _ _ _ (not_mem_of_isDigits h5 ':' (by decide)),
        pySplitOn_no_sep _ _ (not_mem_of_isDigits h6 ':' (by decide))]
    have hdoc : datetime_of_chars big =
        Except.ok (DateTime.mk (digitsVal dy) (digitsVal dm) (digitsVal dd)
          (digitsVal th) (digitsVal tm) (digitsVal ts)) := by
      unfold datetime_of_chars
      rw [hsplitT]
      simp only [hsplitD, hsplitC, pyIntOfChars_digits h1, pyIntOfChars_digits h2,
        pyIntOfChars_digits h3, pyIntOfChars_digits h4, pyIntOfChars_digits h5,
        pyIntOfChars_digits h6, excBind_ok, excPure]
    rw [parse_datetime_str _ (mk_ne_empty hbigne),
      show (String.mk big).data = big from rfl, hdoc]
    rfl

theorem claim_C10_witness :
    ("2020-01-02T03:04:05" : String) ≠ "" ∧
    parse_datetime (Cell.str (String.mk
        (("2020-01-02T03:04:05" : String).data ++ List.replicate 2 'Z'))) =
      parse_datetime (Cell.str "2020-01-02T03:04:05") ∧
    isDigits ['2', '0', '2', '0'] = true ∧
    parse_datetime (Cell.str (String.mk
        (['2', '0', '2', '0'] ++ ('-' :: (['0', '1'] ++ ('-' :: (['0', '2'] ++
          ('T' :: (['0', '3'] ++ (':' :: (['0', '4'] ++
            (':' :: ['0', '5'])))))))))))) =
      Except.ok (some (DateTime.mk 2020 1 2 3 4 5)) := by
  refine ⟨by decide, ?_, by decide, ?_⟩
  · exact claim_C10_parse_datetime_spec.2.1 "2020-01-02T03:04:05" 2 (by decide)
  · have h := claim_C10_parse_datetime_spec.2.2 ['2', '0', '2', '0'] ['0', '1']
      ['0', '2'] ['0', '3'] ['0', '4'] ['0', '5'] (by decide) (by decide) (by decide)
      (by decide) (by decide) (by decide)
    exact h

/-! ### Record-construction inversion lemmas -/

theorem patientProfile_from_row_ok {r : Row} {p : PatientProfile}
    (h : PatientProfile.from_row r = Except.ok p) :
    pyStrField (getCell r "Id") = Except.ok p.id ∧
    parse_date (getCell r "BIRTHDATE") = Except.ok (some p.birthdate) ∧
    pyStrField (getCell r "SSN") = Except.ok p.ssn ∧
    pyStrField (getCell r "FIRST") = Except.ok p.first ∧
    pyStrField (getCell r "LAST") = Except.ok p.last ∧
    optStrField (getCell r "MARITAL") = Except.ok p.marital ∧
    pyStrField (getCell r "RACE") = Except.ok p.race ∧
    pyStrField (getCell r "ETHNICITY") = Except.ok p.ethnicity ∧
    pyStrField (getCell r "GENDER") = Except.ok p.gender ∧
    pyStrField (getCell r "BIRTHPLACE") = Except.ok p.birthplace ∧
    pyStrField (getCell r "ADDRESS") = Except.ok p.address ∧
    pyStrField (getCell r "CITY") = Except.ok p.city ∧
    pyStrField (getCell r "STATE") = Except.ok p.state ∧
    pyStrField (getCell r "COUNTY") = Except.ok p.county ∧
    parse_date (getCell r "DEATHDATE") = Except.ok p.deathdate ∧
    optStrField (getCell r "DRIVERS") = Except.ok p.drivers ∧
    optStrField (getCell r "PASSPORT") = Except.ok p.passport ∧
    optStrField (getCell r "PREFIX") = Except.ok p.prefix_name ∧
    optStrField (getCell r "SUFFIX") = Except.ok p.suffix ∧
    optStrField (getCell r "MAIDEN") = Except.ok p.maiden ∧
    zip_of_cell (getCell r "ZIP") = Except.ok p.zip ∧
    pyFloat (getCell r "LAT") = Except.ok p.lat ∧
    pyFloat (getCell r "LON") = Except.ok p.lon ∧
    pyFloat (getCell r "HEALTHCARE_EXPENSES") = Except.ok p.healthcare_expenses ∧
    pyFloat (getCell r "HEALTHCARE_COVERAGE") = Except.ok p.healthcare_coverage := by
  unfold PatientProfile.from_row at h
  obtain ⟨idv, hId, h⟩ := bind_ok h
  obtain ⟨bdOpt, hBd, h⟩ := bind_ok h
  obtain ⟨bdv, hBd2, h⟩ := bind_ok h
  obtain ⟨ssnv, hSsn, h⟩ := bind_ok h
  obtain ⟨firstv, hFirst, h⟩ := bind_ok h
  obtain ⟨lastv, hLast, h⟩ := bind_ok h
  obtain ⟨maritalv, hMarital, h⟩ := bind_ok h
  obtain ⟨racev, hRace, h⟩ := bind_ok h
  obtain ⟨ethnicityv, hEthnicity, h⟩ := bind_ok h
  obtain ⟨genderv, hGender, h⟩ := bind_ok h
  obtain ⟨birthplacev, hBirthplace, h⟩ := bind_ok h
  obtain ⟨addressv, hAddress, h⟩ := bind_ok h
  obtain ⟨cityv, hCity, h⟩ := bind_ok h
  obtain ⟨statev, hState, h⟩ := bind_ok h
  obtain ⟨countyv, hCounty, h⟩ := bind_ok h
  obtain ⟨deathdatev, hDeath, h⟩ := bind_ok h
  obtain ⟨driversv, hDrivers, h⟩ := bind_ok h
  obtain ⟨passportv, hPassport, h⟩ := bind_ok h
  obtain ⟨prefixv, hPfx, h⟩ := bind_ok h
  obtain ⟨suffixv, hSuffix, h⟩ := bind_ok h
  obtain ⟨maidenv, hMaiden, h⟩ := bind_ok h
  obtain ⟨zipv, hZip, h⟩ := bind_ok h
  obtain ⟨latv, hLat, h⟩ := bind_ok h
  obtain ⟨lonv, hLon, h⟩ := bind_ok h
  obtain ⟨expensesv, hExpenses, h⟩ := bind_ok h
  obtain ⟨coveragev, hCoverage, h⟩ := bind_ok h
  simp only [excPure] at h
  injection h with h
  subst h
  have hbd : parse_date (getCell r "BIRTHDATE") = Except.ok (some bdv) := by
    cases bdOpt with
    | none => simp [reqSome] at hBd2
    | some d =>
        simp only [reqSome] at hBd2
        injection hBd2 with hBd2
        rw [hBd, hBd2]
  exact ⟨hId, hbd, hSsn, hFirst, hLast, hMarital, hRace, hEthnicity, hGender,
    hBirthplace, hAddress, hCity, hState, hCounty, hDeath, hDrivers, hPassport,
    hPfx, hSuffix, hMaiden, hZip, hLat, hLon, hExpenses, hCoverage⟩

/-- The columns `PatientProfile.from_row` reads. -/
def patientColumns : List String :=
  ["Id", "BIRTHDATE", "SSN", "FIRST", "LAST", "MARITAL", "RACE", "ETHNICITY",
   "GENDER", "BIRTHPLACE", "ADDRESS", "CITY", "STATE", "COUNTY", "DEATHDATE",
   "DRIVERS", "PASSPORT", "PREFIX", "SUFFIX", "MAIDEN", "ZIP", "LAT", "LON",
   "HEALTHCARE_EXPENSES", "HEALTHCARE_COVERAGE"]

/-- Claim C5: `PatientProfile.from_row` is a pure deterministic mapping
of the row's cells — two rows that agree on every column it reads yield
the same result — and every optional field whose cell is missing maps to
`None` (never the empty string or zero); a blank `DEATHDATE` (missing,
or present as the empty string) likewise yields an absent death date. -/
theorem claim_C5_from_row_pure_and_optional_absent :
    (∀ r1 r2 : Row, (∀ c ∈ patientColumns, getCell r1 c = getCell r2 c) →
      PatientProfile.from_row r1 = PatientProfile.from_row r2) ∧
    (∀ (r : Row) (p : PatientProfile), PatientProfile.from_row r = Except.ok p →
      ((getCell r "DEATHDATE" = Cell.nan ∨ getCell r "DEATHDATE" = Cell.str "") →
        p.deathdate = none) ∧
      (getCell r "MARITAL" = Cell.nan → p.marital = none) ∧
      (getCell r "DRIVERS" = Cell.nan → p.drivers = none) ∧
      (getCell r "PASSPORT" = Cell.nan → p.passport = none) ∧
      (getCell r "PREFIX" = Cell.nan → p.prefix_name = none) ∧
      (getCell r "SUFFIX" = Cell.nan → p.suffix = none) ∧
      (getCell r "MAIDEN" = Cell.nan → p.maiden = none) ∧
      (getCell r "ZIP" = Cell.nan → p.zip = none)) := by
  constructor
  · intro r1 r2 hag
    have e1 := hag "Id" (by simp [patientColumns])
    have e2 := hag "BIRTHDATE" (by simp [patientColumns])
    have e3 := hag "SSN" (by simp [patientColumns])
    have e4 := hag "FIRST" (by simp [patientColumns])
    have e5 := hag "LAST" (by simp [patientColumns])
    have e6 := hag "MARITAL" (by simp [patientColumns])
    have e7 := hag "RACE" (by simp [patientColumns])
    have e8 := hag "ETHNICITY" (by simp [patientColumns])
    have e9 := hag "GENDER" (by simp [patientColumns])
    have e10 := hag "BIRTHPLACE" (by simp [patientColumns])
    have e11 := hag "ADDRESS" (by simp [patientColumns])
    have e12 := hag "CITY" (by simp [patientColumns])
    have e13 := hag "STATE" (by simp [patientColumns])
    have e14 := hag "COUNTY" (by simp [patientColumns])
    have e15 := hag "DEATHDATE" (by simp [patientColumns])
    have e16 := hag "DRIVERS" (by simp [patientColumns])
    have e17 := hag "PASSPORT" (by simp [patientColumns])
    have e18 := hag "PREFIX" (by simp [patientColumns])
    have e19 := hag "SUFFIX" (by simp [patientColumns])
    have e20 := hag "MAIDEN" (by simp [patientColumns])
    have e21 := hag "ZIP" (by simp [patientColumns])
    have e22 := hag "LAT" (by simp [patientColumns])
    have e23 := hag "LON" (by simp [patientColumns])
    have e24 := hag "HEALTHCARE_EXPENSES" (by simp [patientColumns])
    have e25 := hag "HEALTHCARE_COVERAGE" (by simp [patientColumns])
    unfold PatientProfile.from_row
    rw [e1, e2, e3, e4, e5, e6, e7, e8, e9, e10, e11, e12, e13, e14, e15, e16,
      e17, e18, e19, e20, e21, e22, e23, e24, e25]
  · intro r p h
    obtain ⟨_, _, _, _, _, hMarital, _, _, _, _, _, _, _, _, hDeath, hDrivers,
      hPassport, hPfx, hSuffix, hMaiden, hZip, _, _, _, _⟩ :=
      patientProfile_from_row_ok h
    refine ⟨?_, ?_, ?_, ?_, ?_, ?_, ?_, ?_⟩
    · intro hc
      rcases hc with hc | hc
      · rw [hc] at hDeath
        have h2 : (Except.ok (none : Option Date) : Except Err (Option Date)) =
            Except.ok p.deathdate := hDeath
        injection h2 with h3
        exact h3.symm
      · rw [hc] at hDeath
        have h2 : (Except.ok (none : Option Date) : Except Err (Option Date)) =
            Except.ok p.deathdate := hDeath
        injection h2 with h3
        exact h3.symm
    · intro hc
      rw [hc] at hMarital
      have h2 : (Except.ok (none : Option String) : Except Err (Option String)) =
          Except.ok p.marital := hMarital
      injection h2 with h3
      exact h3.symm
    · intro hc
      rw [hc] at hDrivers
      have h2 : (Except.ok (none : Option String) : Except Err (Option String)) =
          Except.ok p.drivers := hDrivers
      injection h2 with h3
      exact h3.symm
    · intro hc
      rw [hc] at hPassport
      have h2 : (Except.ok (none : Option String) : Except Err (Option String)) =
          Except.ok p.passport := hPassport
      injection h2 with h3
      exact h3.symm
    · intro hc
      rw [hc] at hPfx
      have h2 : (Except.ok (none : Option String) : Except Err (Option String)) =
          Except.ok p.prefix_name := hPfx
      injection h2 with h3
      exact h3.symm
    · intro hc
      rw [hc] at hSuffix
      have h2 : (Except.ok (none : Option String) : Except Err (Option String)) =
          Except.ok p.suffix := hSuffix
      injection h2 with h3
      exact h3.symm
    · intro hc
      rw [hc] at hMaiden
      have h2 : (Except.ok (none : Option String) : Except Err (Option String)) =
          Except.ok p.maiden := hMaiden
      injection h2 with h3
      exact h3.symm
    · intro hc
      rw [hc] at hZip
      have h2 : (Except.ok (none : Option String) : Except Err (Option String)) =
          Except.ok p.zip := hZip
      injection h2 with h3
      exact h3.symm

/-- A concrete patient row whose optional fields are blank. -/
def patientRowW : Row :=
  [("Id", Cell.str "p1"), ("BIRTHDATE", Cell.str "1980-01-02"),
   ("SSN", Cell.str "999-00-1111"), ("FIRST", Cell.str "Ann"),
   ("LAST", Cell.str "Lee"), ("MARITAL", Cell.nan), ("RACE", Cell.str "white"),
   ("ETHNICITY", Cell.str "nonhispanic"), ("GENDER", Cell.str "F"),
   ("BIRTHPLACE", Cell.str "Boston"), ("ADDRESS", Cell.str "1 Main St"),
   ("CITY", Cell.str "Boston"), ("STATE", Cell.str "MA"),
   ("COUNTY", Cell.str "Suffolk"), ("DEATHDATE", Cell.str ""),
   ("DRIVERS", Cell.nan), ("PASSPORT", Cell.nan), ("PREFIX", Cell.nan),
   ("SUFFIX", Cell.nan), ("MAIDEN", Cell.nan), ("ZIP", Cell.nan),
   ("LAT", Cell.num 42), ("LON", Cell.num (-71)),
   ("HEALTHCARE_EXPENSES", Cell.num 1000), ("HEALTHCARE_COVERAGE", Cell.num 500)]

/-- The profile `patientRowW` constructs. -/
def patientProfileW : PatientProfile :=
  PatientProfile.mk "p1" (Date.mk 1980 1 2) "999-00-1111" "Ann" "Lee" "white"
    "nonhispanic" "F" "Boston" "1 Main St" "Boston" "MA" "Suffolk" none none none
    none none none none none (some 42) (some (-71)) (some 1000) (some 500)

theorem claim_C5_witness :
    PatientProfile.from_row patientRowW = Except.ok patientProfileW ∧
    (getCell patientRowW "DEATHDATE" = Cell.nan ∨
      getCell patientRowW "DEATHDATE" = Cell.str "") ∧
    patientProfileW.deathdate = none ∧
    getCell patientRowW "MARITAL" = Cell.nan ∧
    patientProfileW.marital = none := by
  have hok : PatientProfile.from_row patientRowW = Except.ok patientProfileW := rfl
  have hres := claim_C5_from_row_pure_and_optional_absent.2 patientRowW
    patientProfileW hok
  exact ⟨hok, Or.inr (by decide), hres.1 (Or.inr (by decide)), by decide,
    hres.2.1 (by decide)⟩

/-- Claim C9: when the `ZIP` cell is present, the constructed profile's
`zip` is the decimal string of the cell converted with Python `int`
(floats truncate toward zero, so leading zeros and a trailing `.0` are
normalized away); a present but non-convertible `ZIP` makes construction
fail, so a successful construction always carries the converted value. -/
theorem claim_C9_zip_normalization :
    ∀ (r : Row) (p : PatientProfile), PatientProfile.from_row r = Except.ok p →
      (∀ q : ℚ, getCell r "ZIP" = Cell.num q →
        p.zip = some (toString (pyTruncQ q))) ∧
      (getCell r "ZIP" ≠ Cell.nan →
        ∃ n : Int, pyInt (getCell r "ZIP") = Except.ok n ∧
          p.zip = some (toString n)) := by
  intro r p h
  obtain ⟨_, _, _, _, _, _, _, _, _, _, _, _, _, _, _, _, _, _, _, _, hZip,
    _, _, _, _⟩ := patientProfile_from_row_ok h
  constructor
  · intro q hq
    rw [hq] at hZip
    have h2 : (Except.ok (some (toString (pyTruncQ q))) : Except Err (Option String)) =
        Except.ok p.zip := hZip
    injection h2 with h3
    exact h3.symm
  · intro hne
    cases hc : getCell r "ZIP" with
    | nan => exact absurd hc hne
    | num q =>
        rw [hc] at hZip
        refine ⟨pyTruncQ q, rfl, ?_⟩
        have h2 : (Except.ok (some (toString (pyTruncQ q))) :
            Except Err (Option String)) = Except.ok p.zip := hZip
        injection h2 with h3
        exact h3.symm
    | str s =>
        rw [hc] at hZip
        have h2 : (pyIntOfChars s.data).map (fun n => some (toString n)) =
            Except.ok p.zip := hZip
        cases hi : pyIntOfChars s.data with
        | error e =>
            rw [hi] at h2
            simp [Except.map] at h2
        | ok n =>
            rw [hi] at h2
            refine ⟨n, hi, ?_⟩
            simp only [Except.map] at h2
            injection h2 with h3
            exact h3.symm

/-- The float value 2134.7, given in lowest terms so that it reduces. -/
def zipRat : ℚ := ⟨21347, 10, by norm_num, by norm_num⟩

/-- A concrete patient row with a float-formatted `ZIP` value. -/
def patientRowZ : Row :=
  [("Id", Cell.str "p2"), ("BIRTHDATE", Cell.str "1980-01-02"),
   ("SSN", Cell.str "999-00-1111"), ("FIRST", Cell.str "Ann"),
   ("LAST", Cell.str "Lee"), ("MARITAL", Cell.nan), ("RACE", Cell.str "white"),
   ("ETHNICITY", Cell.str "nonhispanic"), ("GENDER", Cell.str "F"),
   ("BIRTHPLACE", Cell.str "Boston"), ("ADDRESS", Cell.str "1 Main St"),
   ("CITY", Cell.str "Boston"), ("STATE", Cell.str "MA"),
   ("COUNTY", Cell.str "Suffolk"), ("DEATHDATE", Cell.nan),
   ("DRIVERS", Cell.nan), ("PASSPORT", Cell.nan), ("PREFIX", Cell.nan),
   ("SUFFIX", Cell.nan), ("MAIDEN", Cell.nan), ("ZIP", Cell.num zipRat),
   ("LAT", Cell.num 42), ("LON", Cell.num (-71)),
   ("HEALTHCARE_EXPENSES", Cell.num 1000), ("HEALTHCARE_COVERAGE", Cell.num 500)]

/-- The profile `patientRowZ` constructs: the ZIP float 2134.7
truncates to the decimal string `2134`. -/
def patientProfileZ : PatientProfile :=
  PatientProfile.mk "p2" (Date.mk 1980 1 2) "999-00-1111" "Ann" "Lee" "white"
    "nonhispanic" "F" "Boston" "1 Main St" "Boston" "MA" "Suffolk" none none none
    none none none (some "2134") none (some 42) (some (-71)) (some 1000) (some 500)

theorem claim_C9_witness :
    PatientProfile.from_row patientRowZ = Except.ok patientProfileZ ∧
    getCell patientRowZ "ZIP" = Cell.num zipRat ∧
    patientProfileZ.zip = some (toString (pyTruncQ zipRat)) := by
  have hok : PatientProfile.from_row patientRowZ = Except.ok patientProfileZ := rfl
  have hres := (claim_C9_zip_normalization patientRowZ patientProfileZ hok).1
    zipRat (by decide)
  exact ⟨hok, by decide, hres⟩

theorem encounterProfile_from_row_ok {r : Row} {p : EncounterProfile}
    (h : EncounterProfile.from_row r = Except.ok p) :
    pyStrField (getCell r "Id") = Except.ok p.id ∧
    parse_datetime (getCell r "START") = Except.ok (some p.start) ∧
    parse_datetime (getCell r "STOP") = Except.ok (some p.stop) ∧
    pyStrField (getCell r "PATIENT") = Except.ok p.patient ∧
    pyStrField (getCell r "ORGANIZATION") = Except.ok p.organization ∧
    pyStrField (getCell r "PROVIDER") = Except.ok p.provider ∧
    pyStrField (getCell r "PAYER") = Except.ok p.payer ∧
    pyStrField (getCell r "ENCOUNTERCLASS") = Except.ok p.encounterclass ∧
    pyStr (getCell r "CODE") = p.code ∧
    pyStrField (getCell r "DESCRIPTION") = Except.ok p.description ∧
    pyFloat (getCell r "BASE_ENCOUNTER_COST") = Except.ok p.base_encounter_cost ∧
    pyFloat (getCell r "TOTAL_CLAIM_COST") = Except.ok p.total_claim_cost ∧
    pyFloat (getCell r "PAYER_COVERAGE") = Except.ok p.payer_coverage ∧
    optFloatField (getCell r "REASONCODE") = Except.ok p.reasoncode ∧
    optStrField (getCell r "REASONDESCRIPTION") = Except.ok p.reasondescription := by
  unfold EncounterProfile.from_row at h
  obtain ⟨idv, hId, h⟩ := bind_ok h
  obtain ⟨stOpt, hSt, h⟩ := bind_ok h
  obtain ⟨stv, hSt2, h⟩ := bind_ok h
  obtain ⟨spOpt, hSp, h⟩ := bind_ok h
  obtain ⟨spv, hSp2, h⟩ := bind_ok h
  obtain ⟨patientv, hPatient, h⟩ := bind_ok h
  obtain ⟨organizationv, hOrganization, h⟩ := bind_ok h
  obtain ⟨providerv, hProvider, h⟩ := bind_ok h
  obtain ⟨payerv, hPayer, h⟩ := bind_ok h
  obtain ⟨encounterclassv, hEncounterclass, h⟩ := bind_ok h
  obtain ⟨descriptionv, hDescription, h⟩ := bind_ok h
  obtain ⟨basev, hBase, h⟩ := bind_ok h
  obtain ⟨totalv, hTotal, h⟩ := bind_ok h
  obtain ⟨coveragev, hCoverage, h⟩ := bind_ok h
  obtain ⟨reasoncodev, hReasoncode, h⟩ := bind_ok h
  obtain ⟨reasondescriptionv, hReasondescription, h⟩ := bind_ok h
  simp only [excPure] at h
  injection h with h
  subst h
  have hst : parse_datetime (getCell r "START") = Except.ok (some stv) := by
    cases stOpt with
    | none => simp [reqSome] at hSt2
    | some d =>
        simp only [reqSome] at hSt2
        injection hSt2 with hSt2
        rw [hSt, hSt2]
  have hsp : parse_datetime (getCell r "STOP") = Except.ok (some spv) := by
    cases spOpt with
    | none => simp [reqSome] at hSp2
    | some d =>
        simp only [reqSome] at hSp2
        injection hSp2 with hSp2
        rw [hSp, hSp2]
  exact ⟨hId, hst, hsp, hPatient, hOrganization, hProvider, hPayer,
    hEncounterclass, rfl, hDescription, hBase, hTotal, hCoverage, hReasoncode,
    hReasondescription⟩

/-- Does an `Except` computation succeed? -/
def isOkB {α : Type} : Except Err α → Bool
| Except.ok _ => true
| Except.error _ => false

/-- Does an optional-parse succeed with a present value? -/
def parsesToSome {α : Type} : Except Err (Option α) → Bool
| Except.ok (some _) => true
| _ => false

/-- Field-by-field success of `EncounterProfile.from_row` on a row:
every individual cell parses/validates.  No condition relates the
`START` and `STOP` timestamps. -/
def encounterRowOk (r : Row) : Bool :=
  isOkB (pyStrField (getCell r "Id")) &&
  parsesToSome (parse_datetime (getCell r "START")) &&
  parsesToSome (parse_datetime (getCell r "STOP")) &&
  isOkB (pyStrField (getCell r "PATIENT")) &&
  isOkB (pyStrField (getCell r "ORGANIZATION")) &&
  isOkB (pyStrField (getCell r "PROVIDER")) &&
  isOkB (pyStrField (getCell r "PAYER")) &&
  isOkB (pyStrField (getCell r "ENCOUNTERCLASS")) &&
  isOkB (pyStrField (getCell r "DESCRIPTION")) &&
  isOkB (pyFloat (getCell r "BASE_ENCOUNTER_COST")) &&
  isOkB (pyFloat (getCell r "TOTAL_CLAIM_COST")) &&
  isOkB (pyFloat (getCell r "PAYER_COVERAGE")) &&
  isOkB (optFloatField (getCell r "REASONCODE")) &&
  isOkB (optStrField (getCell r "REASONDESCRIPTION"))

theorem isOkB_true {α : Type} {e : Except Err α} (h : isOkB e = true) :
    ∃ a, e = Except.ok a := by
  cases e with
  | ok a => exact ⟨a, rfl⟩
  | error er => simp [isOkB] at h

theorem parsesToSome_true {α : Type} {e : Except Err (Option α)}
    (h : parsesToSome e = true) : ∃ a, e = Except.ok (some a) := by
  cases e with
  | ok v =>
      cases v with
      | some a => exact ⟨a, rfl⟩
      | none => simp [parsesToSome] at h
  | error er => simp [parsesToSome] at h

theorem encounterRowOk_from_row {r : Row} (h : encounterRowOk r = true) :
    ∃ p, EncounterProfile.from_row r = Except.ok p := by
  simp only [encounterRowOk, Bool.and_eq_true] at h
  obtain ⟨⟨⟨⟨⟨⟨⟨⟨⟨⟨⟨⟨⟨h1, h2⟩, h3⟩, h4⟩, h5⟩, h6⟩, h7⟩, h8⟩, h9⟩, h10⟩, h11⟩,
    h12⟩, h13⟩, h14⟩ := h
  obtain ⟨idv, hid⟩ := isOkB_true h1
  obtain ⟨stv, hst⟩ := parsesToSome_true h2
  obtain ⟨spv, hsp⟩ := parsesToSome_true h3
  obtain ⟨patientv, hpat⟩ := isOkB_true h4
  obtain ⟨organizationv, horg⟩ := isOkB_true h5
  obtain ⟨providerv, hprov⟩ := isOkB_true h6
  obtain ⟨payerv, hpay⟩ := isOkB_true h7
  obtain ⟨encounterclassv, hcls⟩ := isOkB_true h8
  obtain ⟨descriptionv, hdesc⟩ := isOkB_true h9
  obtain ⟨basev, hbase⟩ := isOkB_true h10
  obtain ⟨totalv, htot⟩ := isOkB_true h11
  obtain ⟨coveragev, hcov⟩ := isOkB_true h12
  obtain ⟨reasoncodev, hrc⟩ := isOkB_true h13
  obtain ⟨reasondescriptionv, hrd⟩ := isOkB_true h14
  refine ⟨EncounterProfile.mk idv stv spv patientv organizationv providerv payerv
    encounterclassv (pyStr (getCell r "CODE")) descriptionv basev totalv coveragev
    reasoncodev reasondescriptionv, ?_⟩
  unfold EncounterProfile.from_row
  rw [hid, hst, hsp, hpat, horg, hprov, hpay, hcls, hdesc, hbase, htot, hcov,
    hrc, hrd]
  simp only [excBind_ok, reqSome, excPure]

/-- A concrete encounter row whose `START` is after its `STOP`. -/
def encRowBad : Row :=
  [("Id", Cell.str "e9"), ("START", Cell.str "2020-01-02T00:00:00Z"),
   ("STOP", Cell.str "2020-01-01T00:00:00Z"), ("PATIENT", Cell.str "p"),
   ("ORGANIZATION", Cell.str "o"), ("PROVIDER", Cell.str "pr"),
   ("PAYER", Cell.str "py"), ("ENCOUNTERCLASS", Cell.str "ambulatory"),
   ("CODE", Cell.num 123), ("DESCRIPTION", Cell.str "Encounter for symptom"),
   ("BASE_ENCOUNTER_COST", Cell.num 10), ("TOTAL_CLAIM_COST", Cell.num 20),
   ("PAYER_COVERAGE", Cell.num 5), ("REASONCODE", Cell.nan),
   ("REASONDESCRIPTION", Cell.nan)]

/-- Claim C8 counterexample: `EncounterProfile.from_row` happily
constructs a profile from a row whose `START` is after its `STOP` — the
construction succeeds and the resulting profile violates
`start <= stop`, so no such invariant is validated. -/
theorem claim_C8_counterexample :
    (EncounterProfile.from_row encRowBad).map
      (fun p => DateTime.leB p.start p.stop) = Except.ok false := rfl

/-- Claim C8 (amended): `EncounterProfile.from_row` validates each field
individually and nothing else — it succeeds exactly when every field
cell parses/validates (`encounterRowOk`), with no condition relating
`start` and `stop`, and a constructed profile carries exactly the
timestamps parsed from the row's `START` and `STOP` cells. -/
theorem claim_C8_amended_no_order_validation :
    (∀ r : Row, isOkB (EncounterProfile.from_row r) = encounterRowOk r) ∧
    (∀ (r : Row) (p : EncounterProfile), EncounterProfile.from_row r = Except.ok p →
      parse_datetime (getCell r "START") = Except.ok (some p.start) ∧
      parse_datetime (getCell r "STOP") = Except.ok (some p.stop)) := by
  constructor
  · intro r
    cases hfr : EncounterProfile.from_row r with
    | ok p =>
        obtain ⟨hId, hst, hsp, hPatient, hOrganization, hProvider, hPayer, hCls,
          _, hDescription, hBase, hTotal, hCoverage, hRc, hRd⟩ :=
          encounterProfile_from_row_ok hfr
        unfold encounterRowOk
        rw [hId, hst, hsp, hPatient, hOrganization, hProvider, hPayer, hCls,
          hDescription, hBase, hTotal, hCoverage, hRc, hRd]
        rfl
    | error e =>
        cases hok : encounterRowOk r with
        | false => rfl
        | true =>
            obtain ⟨p, hp⟩ := encounterRowOk_from_row hok
            rw [hfr] at hp
            cases hp
  · intro r p h
    obtain ⟨_, hst, hsp, _⟩ := encounterProfile_from_row_ok h
    exact ⟨hst, hsp⟩

/-- The profile `encRowBad` constructs (with `start` after `stop`). -/
def encProfileBad : EncounterProfile :=
  EncounterProfile.mk "e9" (DateTime.mk 2020 1 2 0 0 0) (DateTime.mk 2020 1 1 0 0 0)
    "p" "o" "pr" "py" "ambulatory" (pyStr (Cell.num 123)) "Encounter for symptom"
    (some 10) (some 20) (some 5) none none

theorem claim_C8_witness :
    EncounterProfile.from_row encRowBad = Except.ok encProfileBad ∧
    parse_datetime (getCell encRowBad "START") =
      Except.ok (some (DateTime.mk 2020 1 2 0 0 0)) ∧
    parse_datetime (getCell encRowBad "STOP") =
      Except.ok (some (DateTime.mk 2020 1 1 0 0 0)) := by
  have hok : EncounterProfile.from_row encRowBad = Except.ok encProfileBad := rfl
  have hres := claim_C8_amended_no_order_validation.2 encRowBad encProfileBad hok
  exact ⟨hok, hres.1, hres.2⟩

end EHRGen
